import Mathlib

/-!
# Verification of the resource lifecycle and bulk-mutation engine

Shallow embedding of the playthrough / collection-item services of the
backlog-tracking API (`src/api/app/services/playthroughs_service.py` and
`src/api/app/services/collection_service.py`), together with proofs about
the status state machine, the timestamp policy, the single-item mutators
and the partial-failure bulk operation protocol.

Modelling conventions:
* `datetime` values are modelled as `Nat` instants; `datetime.now()` is passed
  in as an explicit `now` parameter.
* Python `float` play-time values are modelled as `ℚ`.
* The record store (SQLAlchemy session over the `playthroughs` /
  `collection_items` tables) is modelled as a list of records; a query
  filtered by `(id == x) ∧ (user_id == u)` followed by `.first()` is
  `List.find?`; a per-record UPDATE commit rewrites the records carrying that
  primary key, and DELETE removes them.
* Wire-layer dict payloads (`bulk_request.data`) are modelled by `JsonVal`
  (string / int / float / null), enough to cover every payload the claims
  quantify over.
-/

/-- An HTTP error raised via `HTTPException(status_code, detail)`. -/
structure HttpError where
  status : Nat
  detail : String
deriving Repr, DecidableEq

/-- Untyped JSON value occurring in a bulk request `data` dict.  (Python
booleans and nested containers never occur in the payload fields the engine
reads, so they are not modelled.) -/
inductive JsonVal where
  | s (v : String)
  | i (v : Int)
  | f (v : ℚ)
  | null
deriving Repr, DecidableEq

/-- Python `str(x)` on a payload value, used only inside error messages. -/
def JsonVal.toStr : JsonVal → String
  | .s v => v
  | .i v => toString v
  | .f v => toString v
  | .null => "None"

/-- Python `float(x)` on a payload value: numbers convert, `None` raises
`TypeError`.  (CPython also parses numeric strings; string payloads for
numeric fields are outside the domain the claims quantify over, and a
non-numeric string likewise raises, so `.s` maps to `none`.) -/
def pyFloat : JsonVal → Option ℚ
  | .i v => some (v : ℚ)
  | .f v => some v
  | .s _ => none
  | .null => none

/-- `PlaythroughStatus` enum (`app/schemas.py`). -/
inductive PlaythroughStatus where
  | PLANNING | PLAYING | COMPLETED | DROPPED | ON_HOLD | MASTERED
deriving Repr, DecidableEq

/-- `.value` of a `PlaythroughStatus` member: the string stored in the DB. -/
def PlaythroughStatus.val : PlaythroughStatus → String
  | .PLANNING => "PLANNING"
  | .PLAYING => "PLAYING"
  | .COMPLETED => "COMPLETED"
  | .DROPPED => "DROPPED"
  | .ON_HOLD => "ON_HOLD"
  | .MASTERED => "MASTERED"

/-- The six status strings, in enum-declaration order. -/
def statusStrings : List String :=
  ["PLANNING", "PLAYING", "COMPLETED", "DROPPED", "ON_HOLD", "MASTERED"]

/-- `CompletionType` enum (`app/schemas.py`). -/
inductive CompletionType where
  | COMPLETED | MASTERED | DROPPED | ON_HOLD
deriving Repr, DecidableEq

/-- `.value` of a `CompletionType` member. -/
def CompletionType.val : CompletionType → String
  | .COMPLETED => "COMPLETED"
  | .MASTERED => "MASTERED"
  | .DROPPED => "DROPPED"
  | .ON_HOLD => "ON_HOLD"

/-- The `valid_transitions` dict literal of `_is_valid_status_transition`,
read through `dict.get(from_status, [])`. -/
def validTransitions (from_status : String) : List String :=
  if from_status = "PLANNING" then ["PLAYING", "DROPPED"]
  else if from_status = "PLAYING" then ["COMPLETED", "DROPPED", "ON_HOLD", "MASTERED"]
  else if from_status = "ON_HOLD" then ["PLAYING", "DROPPED", "COMPLETED", "MASTERED"]
  else if from_status = "COMPLETED" then ["MASTERED"]
  else if from_status = "DROPPED" then ["PLANNING", "PLAYING"]
  else if from_status = "MASTERED" then []
  else []

/-- `_is_valid_status_transition(from_status, to_status)`
(`app/services/playthroughs_service.py`): same status is always legal,
otherwise the target must be in the edge list. -/
def _is_valid_status_transition (from_status to_status : String) : Bool :=
  if from_status = to_status then true
  else (validTransitions from_status).contains to_status

/-- The bulk status-update path reads `bulk_request.data["status"]` untyped and
passes it straight to `_is_valid_status_transition`.  Python `==` between a
`str` and a non-`str` payload is `False`, and `in` over a list of strings
compares elementwise with `==`, so a non-string target never validates. -/
def pyValidTransition (from_status : String) (to_status : JsonVal) : Bool :=
  match to_status with
  | .s t => _is_valid_status_transition from_status t
  | _ => false

/-- A row of the `playthroughs` table (`app/db_models.py`).  `status` and
`platform` are `NOT NULL` columns. -/
structure Playthrough where
  id : String
  user_id : String
  game_id : String
  collection_id : Option String
  status : String
  platform : String
  started_at : Option Nat
  completed_at : Option Nat
  play_time_hours : Option ℚ
  playthrough_type : Option String
  difficulty : Option String
  rating : Option Int
  notes : Option String
  created_at : Nat
  updated_at : Nat
deriving Repr, DecidableEq

/-- A row of the `collection_items` table (`app/db_models.py`). -/
structure CollectionItem where
  id : String
  user_id : String
  game_id : String
  platform : String
  acquisition_type : String
  acquired_at : Option Nat
  priority : Option Int
  is_active : Bool
  notes : Option String
  created_at : Nat
  updated_at : Nat
deriving Repr, DecidableEq

/-- A row of the `games` table.  Only the columns the engine reads are
modelled; the remaining metadata columns are response-only. -/
structure Game where
  id : String
  title : String
deriving Repr, DecidableEq

abbrev PStore := List Playthrough
abbrev CStore := List CollectionItem

/-- `db.query(Playthrough).filter(and_(id == pid, user_id == uid)).first()`. -/
def findOwnedP (db : PStore) (uid pid : String) : Option Playthrough :=
  db.find? (fun p => p.id == pid && p.user_id == uid)

/-- `db.scalar(select(CollectionItem).where(and_(id == cid, user_id == uid)))`. -/
def findOwnedC (db : CStore) (uid cid : String) : Option CollectionItem :=
  db.find? (fun c => c.id == cid && c.user_id == uid)

/-- Committing a mutation of the row with primary key `pid`: the store rewrites
exactly the records carrying that key. -/
def storeWriteP (db : PStore) (pid : String) (p' : Playthrough) : PStore :=
  db.map (fun q => if q.id == pid then p' else q)

/-- `db.delete(...)` + commit for the row with primary key `pid`. -/
def storeDeleteP (db : PStore) (pid : String) : PStore :=
  db.filter (fun q => !(q.id == pid))

def storeWriteC (db : CStore) (cid : String) (c' : CollectionItem) : CStore :=
  db.map (fun q => if q.id == cid then c' else q)

def storeDeleteC (db : CStore) (cid : String) : CStore :=
  db.filter (fun q => !(q.id == cid))

/-- All records in the store carrying a given primary key (used to state what
"persists" for one id independently of the rest of the store). -/
def recordsWithIdP (db : PStore) (pid : String) : List Playthrough :=
  db.filter (fun q => q.id == pid)

def recordsWithIdC (db : CStore) (cid : String) : List CollectionItem :=
  db.filter (fun q => q.id == cid)

/-- The claim's edge table, stated from the spec text (§4.1) for comparison
with the code's `_is_valid_status_transition`. -/
def specEdgeTable : List (String × String) :=
  [("PLANNING", "PLAYING"), ("PLANNING", "DROPPED"),
   ("PLAYING", "COMPLETED"), ("PLAYING", "DROPPED"), ("PLAYING", "ON_HOLD"), ("PLAYING", "MASTERED"),
   ("ON_HOLD", "PLAYING"), ("ON_HOLD", "DROPPED"), ("ON_HOLD", "COMPLETED"), ("ON_HOLD", "MASTERED"),
   ("COMPLETED", "MASTERED"),
   ("DROPPED", "PLANNING"), ("DROPPED", "PLAYING")]



/-- Wire-layer distinction for `PlaythroughUpdate` fields:
`model_dump(exclude_unset=True, exclude_none=False)` separates an omitted
field, an explicit `null`, and a value. -/
inductive Patch (α : Type) where
  | unset
  | null
  | val (a : α)
deriving Repr, DecidableEq

/-- The update loop's effect on a nullable column: omitted leaves it alone,
explicit `null` clears it, a value overwrites it. -/
def applyPatch {α : Type} (cur : Option α) : Patch α → Option α
  | .unset => cur
  | .null => none
  | .val a => some a

/-- `PlaythroughUpdate` request body (`app/schemas.py`): every field optional,
`status` validated to the enum by pydantic. -/
structure PlaythroughUpdate where
  status : Patch PlaythroughStatus := .unset
  platform : Patch String := .unset
  started_at : Patch Nat := .unset
  completed_at : Patch Nat := .unset
  play_time_hours : Patch ℚ := .unset
  playthrough_type : Patch String := .unset
  difficulty : Patch String := .unset
  rating : Patch Int := .unset
  notes : Patch String := .unset
deriving Repr, DecidableEq

/-- `update_data.status and update_data.status.value`: a supplied enum member
is truthy, an explicit `null` (or omission) is falsy. -/
def PlaythroughUpdate.statusVal (upd : PlaythroughUpdate) : Option String :=
  match upd.status with
  | .val s => some s.val
  | _ => none

/-- `status` and `platform` are `NOT NULL` columns; an explicit `null` for
either survives the field loop and makes the commit fail
(`IntegrityError` → rollback → HTTP 500, store unchanged). -/
def PlaythroughUpdate.nullViolation (upd : PlaythroughUpdate) : Bool :=
  (match upd.status with | .null => true | _ => false)
  || (match upd.platform with | .null => true | _ => false)

/-- The field-application loop of `update_playthrough` followed by the
timestamp policy: record state as committed on the success path. -/
def updatedRecord (p : Playthrough) (upd : PlaythroughUpdate) (now : Nat) : Playthrough :=
  let p1 : Playthrough :=
    { p with
      status := (match upd.status with | .val s => s.val | _ => p.status),
      platform := (match upd.platform with | .val v => v | _ => p.platform),
      started_at := applyPatch p.started_at upd.started_at,
      completed_at := applyPatch p.completed_at upd.completed_at,
      play_time_hours := applyPatch p.play_time_hours upd.play_time_hours,
      playthrough_type := applyPatch p.playthrough_type upd.playthrough_type,
      difficulty := applyPatch p.difficulty upd.difficulty,
      rating := applyPatch p.rating upd.rating,
      notes := applyPatch p.notes upd.notes }
  let p2 := if upd.statusVal == some "PLAYING" && p1.started_at.isNone then
              { p1 with started_at := some now } else p1
  let p3 := if (upd.statusVal == some "COMPLETED" || upd.statusVal == some "MASTERED")
               && p2.completed_at.isNone then
              { p2 with completed_at := some now } else p2
  { p3 with updated_at := now }

/-- Field application, timestamp policy and commit of `update_playthrough`. -/
def updateApplyCommit (db : PStore) (pid : String) (p : Playthrough)
    (upd : PlaythroughUpdate) (now : Nat) : Except HttpError (PStore × Playthrough) :=
  if upd.nullViolation then .error ⟨500, "Failed to update playthrough"⟩
  else .ok (storeWriteP db pid (updatedRecord p upd now), updatedRecord p upd now)

/-- `update_playthrough` (`app/services/playthroughs_service.py`): owner-scoped
load, transition-legality check when a different status value is supplied,
field application, timestamp policy, commit. -/
def update_playthrough (db : PStore) (uid pid : String) (upd : PlaythroughUpdate)
    (now : Nat) : Except HttpError (PStore × Playthrough) :=
  match findOwnedP db uid pid with
  | none => .error ⟨404, "Playthrough not found"⟩
  | some p =>
    match upd.status with
    | .val s =>
      if s.val != p.status && !(_is_valid_status_transition p.status s.val) then
        .error ⟨422, "Invalid status transition from " ++ p.status ++ " to " ++ s.val⟩
      else updateApplyCommit db pid p upd now
    | _ => updateApplyCommit db pid p upd now

/-- `PlaythroughComplete` request body (`app/schemas.py`). -/
structure PlaythroughComplete where
  completion_type : CompletionType
  completed_at : Option Nat := none
  final_play_time_hours : Option ℚ := none
  rating : Option Int := none
  final_notes : Option String := none
deriving Repr, DecidableEq

/-- The completion writes of `complete_playthrough`: status, `completed_at`
(explicit value wins, else auto-set for the finalizing completion types when
unset), optional final fields, and `updated_at`. -/
def completedRecord (p : Playthrough) (c : PlaythroughComplete) (now : Nat) : Playthrough :=
  let cs := c.completion_type.val
  let p1 := { p with status := cs }
  let p2 :=
    if cs == "COMPLETED" || cs == "MASTERED" || cs == "DROPPED" then
      match c.completed_at with
      | some d => { p1 with completed_at := some d }
      | none =>
        if p1.completed_at.isNone then { p1 with completed_at := some now } else p1
    else p1
  let p3 := match c.final_play_time_hours with
    | some h => { p2 with play_time_hours := some h }
    | none => p2
  let p4 := match c.rating with
    | some r => { p3 with rating := some r }
    | none => p3
  let p5 := match c.final_notes with
    | some n => { p4 with notes := some n }
    | none => p4
  { p5 with updated_at := now }

/-- `complete_playthrough` (`app/services/playthroughs_service.py`). -/
def complete_playthrough (db : PStore) (uid pid : String) (c : PlaythroughComplete)
    (now : Nat) : Except HttpError (PStore × Playthrough) :=
  match findOwnedP db uid pid with
  | none => .error ⟨404, "Playthrough not found"⟩
  | some p =>
    if p.status == "COMPLETED" || p.status == "MASTERED" || p.status == "DROPPED" then
      .error ⟨409, "Playthrough is already completed with status " ++ p.status⟩
    else
      let cs := c.completion_type.val
      if !(_is_valid_status_transition p.status cs) then
        .error ⟨422, "Invalid status transition from " ++ p.status ++ " to " ++ cs⟩
      else
        .ok (storeWriteP db pid (completedRecord p c now), completedRecord p c now)

/-- `delete_playthrough`: owner-scoped load, then unconditional hard delete. -/
def delete_playthrough (db : PStore) (uid pid : String) : Except HttpError PStore :=
  match findOwnedP db uid pid with
  | none => .error ⟨404, "Playthrough not found"⟩
  | some _ => .ok (storeDeleteP db pid)

/-- `get_playthrough_by_id`: the query inner-joins `Game`, so `.first()` is
empty when the playthrough is absent, not owned, or its game row is gone. -/
def get_playthrough_by_id (db : PStore) (games : List Game) (uid pid : String) :
    Except HttpError (Playthrough × Game) :=
  match findOwnedP db uid pid with
  | none => .error ⟨404, "Playthrough not found"⟩
  | some p =>
    match games.find? (fun g => g.id == p.game_id) with
    | none => .error ⟨404, "Playthrough not found"⟩
    | some g => .ok (p, g)

/-- `PlaythroughCreate` request body (`app/schemas.py`). -/
structure PlaythroughCreate where
  game_id : String
  collection_id : Option String := none
  status : PlaythroughStatus
  platform : String
  started_at : Option Nat := none
  completed_at : Option Nat := none
  play_time_hours : Option ℚ := none
  playthrough_type : Option String := none
  difficulty : Option String := none
  rating : Option Int := none
  notes : Option String := none
deriving Repr, DecidableEq

/-- `create_playthrough` (`app/services/playthroughs_service.py`): validates
the game, then the optional owner-scoped collection item and its
cross-resource `game_id` agreement, then inserts. -/
def create_playthrough (games : List Game) (colls : CStore) (db : PStore)
    (uid : String) (data : PlaythroughCreate) (newId : String) (now : Nat) :
    Except HttpError (PStore × Playthrough) :=
  match games.find? (fun g => g.id == data.game_id) with
  | none => .error ⟨404, "Game not found"⟩
  | some _ =>
    let mk : Playthrough :=
      { id := newId, user_id := uid, game_id := data.game_id,
        collection_id := data.collection_id, status := data.status.val,
        platform := data.platform, started_at := data.started_at,
        completed_at := data.completed_at, play_time_hours := data.play_time_hours,
        playthrough_type := data.playthrough_type, difficulty := data.difficulty,
        rating := data.rating, notes := data.notes,
        created_at := now, updated_at := now }
    match data.collection_id with
    | some cid =>
      match findOwnedC colls uid cid with
      | none => .error ⟨404, "Collection item not found"⟩
      | some c =>
        if c.game_id != data.game_id then
          .error ⟨400, "Collection item is for a different game"⟩
        else .ok (db ++ [mk], mk)
    | none => .ok (db ++ [mk], mk)

/-- `get_collection_item` (`app/services/collection_service.py`): owner-scoped
load inner-joined with `Game`. -/
def get_collection_item (db : CStore) (games : List Game) (uid cid : String) :
    Except HttpError (CollectionItem × Game) :=
  match findOwnedC db uid cid with
  | none => .error ⟨404, "Collection item not found"⟩
  | some c =>
    match games.find? (fun g => g.id == c.game_id) with
    | none => .error ⟨404, "Collection item not found"⟩
    | some g => .ok (c, g)

/-- `CollectionItemUpdate` request body: explicit nulls are ignored
(`is not None` guards), so plain `Option` fields suffice. -/
structure CollectionItemUpdate where
  platform : Option String := none
  acquisition_type : Option String := none
  acquired_at : Option Nat := none
  priority : Option Int := none
  is_active : Option Bool := none
  notes : Option String := none
deriving Repr, DecidableEq

/-- `update_collection_item`: applies only supplied fields; `updated_at` is
refreshed (and the row committed) only when at least one field was supplied. -/
def update_collection_item (db : CStore) (games : List Game) (uid cid : String)
    (upd : CollectionItemUpdate) (now : Nat) : Except HttpError (CStore × CollectionItem) :=
  match findOwnedC db uid cid with
  | none => .error ⟨404, "Collection item not found"⟩
  | some c =>
    match games.find? (fun g => g.id == c.game_id) with
    | none => .error ⟨404, "Collection item not found"⟩
    | some _ =>
      let hasAny := upd.platform.isSome || upd.acquisition_type.isSome
        || upd.acquired_at.isSome || upd.priority.isSome
        || upd.is_active.isSome || upd.notes.isSome
      if hasAny then
        let c1 : CollectionItem :=
          { c with
            platform := upd.platform.getD c.platform,
            acquisition_type := upd.acquisition_type.getD c.acquisition_type,
            acquired_at := (match upd.acquired_at with
              | some a => some a
              | none => c.acquired_at),
            priority := (match upd.priority with
              | some pr => some pr
              | none => c.priority),
            is_active := upd.is_active.getD c.is_active,
            notes := (match upd.notes with
              | some n => some n
              | none => c.notes),
            updated_at := now }
        .ok (storeWriteC db cid c1, c1)
      else .ok (db, c)

/-- `delete_collection_item`: hard delete guarded by dependent playthroughs,
soft delete sets `is_active = False`. -/
def delete_collection_item (db : CStore) (plays : PStore) (uid cid : String)
    (hard_delete : Bool) (now : Nat) : Except HttpError (CStore × String) :=
  match findOwnedC db uid cid with
  | none => .error ⟨404, "Collection item not found"⟩
  | some c =>
    if hard_delete then
      if (plays.filter (fun p => p.collection_id == some c.id)).length > 0 then
        .error ⟨409, "Cannot hard delete: collection item has associated playthroughs"⟩
      else .ok (storeDeleteC db cid, "Collection item permanently deleted")
    else
      .ok (storeWriteC db cid { c with is_active := false, updated_at := now },
        "Collection item soft deleted")

/-- `BulkAction` enum (`app/schemas.py`). -/
inductive BulkAction where
  | update_status | update_platform | add_time | delete
deriving Repr, DecidableEq

/-- The `data` dict of a playthrough bulk request, restricted to the keys the
engine reads.  `status` and `hours` are read untyped; the engine assigns
`platform` into a `NOT NULL` string column without validation, so platform
payloads are modelled at the string domain the claims quantify over. -/
structure PBulkData where
  status : Option JsonVal := none
  platform : Option String := none
  hours : Option JsonVal := none
deriving Repr, DecidableEq

/-- `PlaythroughBulkRequest` (`app/schemas.py`); the schema enforces
`min_length=1` on `playthrough_ids` at the wire layer. -/
structure PlaythroughBulkRequest where
  action : BulkAction
  playthrough_ids : List String
  data : Option PBulkData := none
deriving Repr, DecidableEq

/-- `BulkResultItem` (`app/schemas.py`). -/
structure BulkResultItem where
  id : String
  status : Option String := none
  platform : Option String := none
  play_time_hours : Option ℚ := none
deriving Repr, DecidableEq

/-- `BulkFailedItem` (`app/schemas.py`). -/
structure BulkFailedItem where
  id : String
  error : String
deriving Repr, DecidableEq

/-- Effect of one bulk action on one fetched playthrough row. -/
inductive PItemStep where
  | write (p' : Playthrough) (res : BulkResultItem)
  | del (res : BulkResultItem)
  | fail (msg : String)
deriving Repr, DecidableEq

/-- The action-specific body of the per-item loop of
`bulk_playthrough_operations`, after the row was fetched.  The `none` branches
for the action's required key are unreachable behind the request-level
precondition (a `KeyError` there would be caught by the loop's
`except` clause). -/
def bulkItemApply (action : BulkAction) (d : PBulkData) (now : Nat)
    (p : Playthrough) : PItemStep :=
  match action with
  | .update_status =>
    match d.status with
    | some (.s t) =>
      if _is_valid_status_transition p.status t then
        let p1 := { p with status := t }
        let p2 := if t == "PLAYING" && p1.started_at.isNone then
                    { p1 with started_at := some now }
                  else if (t == "COMPLETED" || t == "MASTERED")
                          && p1.completed_at.isNone then
                    { p1 with completed_at := some now }
                  else p1
        let p3 := { p2 with updated_at := now }
        .write p3 { id := p3.id, status := some p3.status }
      else .fail ("Invalid status transition from " ++ p.status ++ " to " ++ t)
    | some v => .fail ("Invalid status transition from " ++ p.status ++ " to " ++ v.toStr)
    | none => .fail "KeyError"
  | .update_platform =>
    match d.platform with
    | some plat =>
      .write { p with platform := plat, updated_at := now }
        { id := p.id, platform := some plat }
    | none => .fail "KeyError"
  | .add_time =>
    match d.hours with
    | some v =>
      match pyFloat v with
      | none => .fail "Invalid hours value"
      | some h =>
        if h ≤ 0 then .fail "Hours must be positive"
        else
          let t := p.play_time_hours.getD 0 + h
          .write { p with play_time_hours := some t, updated_at := now }
            { id := p.id, play_time_hours := some t }
    | none => .fail "KeyError"
  | .delete => .del { id := p.id }

/-- One iteration of the playthrough bulk loop: owner-scoped fetch, the
action-specific mutation, and the per-item commit. -/
def processOneP (uid : String) (action : BulkAction) (d : PBulkData) (now : Nat)
    (db : PStore) (pid : String) : (PStore × BulkResultItem) ⊕ BulkFailedItem :=
  match findOwnedP db uid pid with
  | none => .inr ⟨pid, "Playthrough not found"⟩
  | some p =>
    match bulkItemApply action d now p with
    | .write p' res => .inl (storeWriteP db pid p', res)
    | .del res => .inl (storeDeleteP db pid, res)
    | .fail msg => .inr ⟨pid, msg⟩

/-- The playthrough bulk loop: each item commits (or fails) on its own, then
the loop continues with the remaining ids. -/
def bulkLoopP (uid : String) (action : BulkAction) (d : PBulkData) (now : Nat) :
    List String → PStore → List BulkResultItem → List BulkFailedItem →
    PStore × List BulkResultItem × List BulkFailedItem
  | [], s, succ, fails => (s, succ, fails)
  | pid :: rest, s, succ, fails =>
    match processOneP uid action d now s pid with
    | .inl (s', r) => bulkLoopP uid action d now rest s' (succ ++ [r]) fails
    | .inr f => bulkLoopP uid action d now rest s succ (fails ++ [f])

/-- `PlaythroughBulkResponse` body as assembled by the service: the failed
fields are present only when at least one item failed. -/
structure PlaythroughBulkResponse where
  success : Bool
  updated_count : Nat
  items : List BulkResultItem
  failed_count : Option Nat := none
  failed_items : Option (List BulkFailedItem) := none
deriving Repr, DecidableEq

/-- The request-level payload precondition of `bulk_playthrough_operations`:
`not bulk_request.data or "<key>" not in bulk_request.data` for the key the
action requires (`delete` requires none). -/
def requiredDataOkP : BulkAction → Option PBulkData → Bool
  | .update_status, some d => d.status.isSome
  | .update_platform, some d => d.platform.isSome
  | .add_time, some d => d.hours.isSome
  | .delete, _ => true
  | _, none => false

def requiredMsgP : BulkAction → String
  | .update_status => "Status is required for update_status action"
  | .update_platform => "Platform is required for update_platform action"
  | .add_time => "Hours is required for add_time action"
  | .delete => ""

/-- `bulk_playthrough_operations` (`app/services/playthroughs_service.py`).
Returns the final store, the response body, and the HTTP status code.  The
`else: 422 Invalid action` branch of the source is unreachable because the
schema already restricts `action` to the four enum members. -/
def bulk_playthrough_operations (db : PStore) (uid : String)
    (req : PlaythroughBulkRequest) (now : Nat) :
    Except HttpError (PStore × PlaythroughBulkResponse × Nat) :=
  if !requiredDataOkP req.action req.data then
    .error ⟨400, requiredMsgP req.action⟩
  else
    let d := req.data.getD {}
    let out := bulkLoopP uid req.action d now req.playthrough_ids db [] []
    let succ := out.2.1
    let fails := out.2.2
    let ok := fails.isEmpty
    let resp : PlaythroughBulkResponse :=
      { success := ok, updated_count := succ.length, items := succ,
        failed_count := if fails.isEmpty then none else some fails.length,
        failed_items := if fails.isEmpty then none else some fails }
    .ok (out.1, resp, if ok then 200 else 207)

/-- `BulkCollectionAction` enum (`app/schemas.py`). -/
inductive BulkCollectionAction where
  | update_priority | update_platform | hide | activate
deriving Repr, DecidableEq

/-- The `data` dict of a collection bulk request; both keys are read untyped
and validated per item. -/
structure CollBulkData where
  priority : Option JsonVal := none
  platform : Option JsonVal := none
deriving Repr, DecidableEq

/-- `BulkCollectionRequest` (`app/schemas.py`); `min_length=1` on
`collection_ids` is enforced at the wire layer. -/
structure BulkCollectionRequest where
  action : BulkCollectionAction
  collection_ids : List String
  data : Option CollBulkData := none
deriving Repr, DecidableEq

/-- `BulkCollectionResult` (`app/schemas.py`).  The `updated_data` echo of the
written fields is response shaping and is not modelled. -/
structure BulkCollectionResult where
  id : String
  success : Bool
  error : Option String := none
deriving Repr, DecidableEq

/-- Effect of one collection bulk action on one fetched row. -/
inductive CItemStep where
  | write (c' : CollectionItem)
  | fail (msg : String)
deriving Repr, DecidableEq

/-- The action-specific body of the per-item loop of
`bulk_collection_operations`: priority must be a Python `int` in 1..5,
platform a non-empty `str`; hide/activate are unconditional. -/
def collItemApply (action : BulkCollectionAction) (d : CollBulkData) (now : Nat)
    (c : CollectionItem) : CItemStep :=
  match action with
  | .update_priority =>
    match d.priority with
    | some (.i pr) =>
      if 1 ≤ pr ∧ pr ≤ 5 then .write { c with priority := some pr, updated_at := now }
      else .fail "Priority must be between 1 and 5"
    | some _ => .fail "Priority must be between 1 and 5"
    | none => .fail "KeyError"
  | .update_platform =>
    match d.platform with
    | some (.s str) =>
      if str != "" then .write { c with platform := str, updated_at := now }
      else .fail "Platform must be a non-empty string"
    | some _ => .fail "Platform must be a non-empty string"
    | none => .fail "KeyError"
  | .hide => .write { c with is_active := false, updated_at := now }
  | .activate => .write { c with is_active := true, updated_at := now }

/-- One iteration of the collection bulk loop (fetch, mutate, per-item
commit); `inr` is the per-item failure result. -/
def processOneC (uid : String) (action : BulkCollectionAction) (d : CollBulkData)
    (now : Nat) (db : CStore) (cid : String) :
    (CStore × BulkCollectionResult) ⊕ BulkCollectionResult :=
  match findOwnedC db uid cid with
  | none => .inr ⟨cid, false, some "Collection item not found or not owned by user"⟩
  | some c =>
    match collItemApply action d now c with
    | .write c' => .inl (storeWriteC db cid c', ⟨cid, true, none⟩)
    | .fail msg => .inr ⟨cid, false, some msg⟩

/-- The collection bulk loop: one result per submitted id, in submission
order, with `updated_count` incremented on each success. -/
def bulkLoopC (uid : String) (action : BulkCollectionAction) (d : CollBulkData)
    (now : Nat) : List String → CStore → List BulkCollectionResult → Nat →
    CStore × List BulkCollectionResult × Nat
  | [], s, results, updated => (s, results, updated)
  | cid :: rest, s, results, updated =>
    match processOneC uid action d now s cid with
    | .inl (s', r) => bulkLoopC uid action d now rest s' (results ++ [r]) (updated + 1)
    | .inr r => bulkLoopC uid action d now rest s (results ++ [r]) updated

/-- `BulkCollectionResponse` (`app/schemas.py`). -/
structure BulkCollectionResponse where
  success : Bool
  updated_count : Nat
  total_count : Nat
  results : List BulkCollectionResult
deriving Repr, DecidableEq

/-- Request-level payload precondition of `bulk_collection_operations`. -/
def requiredDataOkC : BulkCollectionAction → Option CollBulkData → Bool
  | .update_priority, some d => d.priority.isSome
  | .update_platform, some d => d.platform.isSome
  | .hide, _ => true
  | .activate, _ => true
  | _, none => false

def requiredMsgC : BulkCollectionAction → String
  | .update_priority => "Priority data is required for update_priority action"
  | .update_platform => "Platform data is required for update_platform action"
  | .hide => ""
  | .activate => ""

/-- `bulk_collection_operations` (`app/services/collection_service.py`):
precondition, per-item loop, then `success = (updated_count == total_count)`
and status 200 on full success, 207 otherwise. -/
def bulk_collection_operations (db : CStore) (uid : String)
    (req : BulkCollectionRequest) (now : Nat) :
    Except HttpError (CStore × BulkCollectionResponse × Nat) :=
  if !requiredDataOkC req.action req.data then
    .error ⟨400, requiredMsgC req.action⟩
  else
    let d := req.data.getD {}
    let out := bulkLoopC uid req.action d now req.collection_ids db [] 0
    let total := req.collection_ids.length
    let allOk := out.2.2 == total
    .ok (out.1,
      { success := allOk, updated_count := out.2.2, total_count := total,
        results := out.2.1 },
      if allOk then 200 else 207)


/-- Store-level status invariant: every persisted status is one of the six
`PlaythroughStatus` values. -/
def storeStatusOk (db : PStore) : Prop := ∀ p ∈ db, p.status ∈ statusStrings

/-! ### Concrete fixtures used by witnesses and counterexamples -/

def gameOne : Game := { id := "game-1", title := "Elden Ring" }

def gameTwo : Game := { id := "game-2", title := "Hades" }

def colOne : CollectionItem :=
  { id := "col-1", user_id := "user-1", game_id := "game-1", platform := "PC",
    acquisition_type := "DIGITAL", acquired_at := none, priority := some 2,
    is_active := true, notes := none, created_at := 0, updated_at := 0 }

def colTwo : CollectionItem :=
  { colOne with id := "col-2", platform := "Switch" }

def colHostile : CollectionItem :=
  { colOne with id := "col-9", user_id := "user-2" }

def ptA : Playthrough :=
  { id := "pt-a", user_id := "user-1", game_id := "game-1", collection_id := none,
    status := "PLANNING", platform := "PC", started_at := none, completed_at := none,
    play_time_hours := none, playthrough_type := none, difficulty := none,
    rating := none, notes := none, created_at := 0, updated_at := 0 }

def ptC : Playthrough :=
  { ptA with id := "pt-c", status := "PLAYING", play_time_hours := some 2 }

def ptTwo : Playthrough :=
  { ptA with id := "pt-2", status := "PLAYING" }

def ptDone : Playthrough :=
  { ptA with id := "pt-done", status := "COMPLETED", completed_at := some 5 }

def ptHostile : Playthrough :=
  { ptA with id := "pt-h", user_id := "user-2" }

def fixtureDb : PStore := [ptA, ptC]

/-! ### Generic list lemmas for per-record frame reasoning -/

theorem find?_map_congr {α : Type} (f : α → α) (p : α → Bool) :
    ∀ l : List α, (∀ a ∈ l, p (f a) = p a ∧ (p a = true → f a = a)) →
      (l.map f).find? p = l.find? p
  | [], _ => rfl
  | a :: t, h => by
    have h1 := h a (List.mem_cons_self a t)
    cases hpa : p a with
    | true =>
      rw [List.map_cons, List.find?_cons_of_pos _ (h1.1.trans hpa),
        List.find?_cons_of_pos _ hpa, h1.2 hpa]
    | false =>
      rw [List.map_cons, List.find?_cons_of_neg _ (by simp [h1.1, hpa]),
        List.find?_cons_of_neg _ (by simp [hpa]),
        find?_map_congr f p t (fun x hx => h x (List.mem_cons_of_mem a hx))]

theorem filter_map_congr {α : Type} (f : α → α) (p : α → Bool) :
    ∀ l : List α, (∀ a ∈ l, p (f a) = p a ∧ (p a = true → f a = a)) →
      (l.map f).filter p = l.filter p
  | [], _ => rfl
  | a :: t, h => by
    have h1 := h a (List.mem_cons_self a t)
    have ih := filter_map_congr f p t (fun x hx => h x (List.mem_cons_of_mem a hx))
    cases hpa : p a with
    | true =>
      rw [List.map_cons, List.filter_cons_of_pos (h1.1.trans hpa),
        List.filter_cons_of_pos hpa, h1.2 hpa, ih]
    | false =>
      rw [List.map_cons, List.filter_cons_of_neg (by simp [h1.1.trans hpa]),
        List.filter_cons_of_neg (by simp [hpa]), ih]

theorem find?_filter_of_imp {α : Type} (p q : α → Bool) :
    ∀ l : List α, (∀ a ∈ l, p a = true → q a = true) →
      (l.filter q).find? p = l.find? p
  | [], _ => rfl
  | a :: t, h => by
    have ih := find?_filter_of_imp p q t (fun x hx => h x (List.mem_cons_of_mem a hx))
    cases hqa : q a with
    | true =>
      rw [List.filter_cons_of_pos hqa]
      cases hpa : p a with
      | true => rw [List.find?_cons_of_pos _ hpa, List.find?_cons_of_pos _ hpa]
      | false =>
        rw [List.find?_cons_of_neg _ (by simp [hpa]), List.find?_cons_of_neg _ (by simp [hpa]), ih]
    | false =>
      have hpa : p a = false := by
        cases hpa : p a with
        | true => exact absurd (h a (List.mem_cons_self a t) hpa) (by simp [hqa])
        | false => rfl
      rw [List.filter_cons_of_neg (by simp [hqa]), List.find?_cons_of_neg _ (by simp [hpa]), ih]

theorem filter_filter_of_imp {α : Type} (p q : α → Bool) :
    ∀ l : List α, (∀ a ∈ l, p a = true → q a = true) →
      (l.filter q).filter p = l.filter p
  | [], _ => rfl
  | a :: t, h => by
    have ih := filter_filter_of_imp p q t (fun x hx => h x (List.mem_cons_of_mem a hx))
    cases hqa : q a with
    | true =>
      rw [List.filter_cons_of_pos hqa]
      cases hpa : p a with
      | true => rw [List.filter_cons_of_pos hpa, List.filter_cons_of_pos hpa, ih]
      | false =>
        rw [List.filter_cons_of_neg (by simp [hpa]), List.filter_cons_of_neg (by simp [hpa]), ih]
    | false =>
      have hpa : p a = false := by
        cases hpa : p a with
        | true => exact absurd (h a (List.mem_cons_self a t) hpa) (by simp [hqa])
        | false => rfl
      rw [List.filter_cons_of_neg (by simp [hqa]), List.filter_cons_of_neg (by simp [hpa]), ih]

theorem filter_map_const {α : Type} (f : α → α) (p : α → Bool) (c : α) :
    ∀ l : List α, (∀ a ∈ l, p (f a) = p a) → (∀ a ∈ l, p a = true → f a = c) →
      (l.map f).filter p = (l.filter p).map (fun _ => c)
  | [], _, _ => rfl
  | a :: t, h, hc => by
    have h1 := h a (List.mem_cons_self a t)
    have ih := filter_map_const f p c t (fun x hx => h x (List.mem_cons_of_mem a hx))
      (fun x hx => hc x (List.mem_cons_of_mem a hx))
    cases hpa : p a with
    | true =>
      rw [List.map_cons, List.filter_cons_of_pos (h1.trans hpa),
        List.filter_cons_of_pos hpa, List.map_cons, ih,
        hc a (List.mem_cons_self a t) hpa]
    | false =>
      rw [List.map_cons, List.filter_cons_of_neg (by simp [h1.trans hpa]),
        List.filter_cons_of_neg (by simp [hpa]), ih]

theorem filter_filter_none {α : Type} (p q : α → Bool) :
    ∀ l : List α, (∀ a ∈ l, q a = true → p a = false) →
      (l.filter q).filter p = []
  | [], _ => rfl
  | a :: t, h => by
    have ih := filter_filter_none p q t (fun x hx => h x (List.mem_cons_of_mem a hx))
    cases hqa : q a with
    | true =>
      rw [List.filter_cons_of_pos hqa,
        List.filter_cons_of_neg (by simp [h a (List.mem_cons_self a t) hqa]), ih]
    | false => rw [List.filter_cons_of_neg (by simp [hqa]), ih]

/-! ### Store-level frame lemmas -/

theorem findOwnedP_some {s : PStore} {uid pid : String} {p : Playthrough}
    (h : findOwnedP s uid pid = some p) : p.id = pid ∧ p.user_id = uid := by
  have := List.find?_some h
  simp only [Bool.and_eq_true, beq_iff_eq] at this
  exact this

theorem findOwnedC_some {s : CStore} {uid cid : String} {c : CollectionItem}
    (h : findOwnedC s uid cid = some c) : c.id = cid ∧ c.user_id = uid := by
  have := List.find?_some h
  simp only [Bool.and_eq_true, beq_iff_eq] at this
  exact this

theorem findOwnedP_write_ne (s : PStore) (uid i j : String) (p' : Playthrough)
    (hid : p'.id = i) (hne : j ≠ i) :
    findOwnedP (storeWriteP s i p') uid j = findOwnedP s uid j := by
  unfold findOwnedP storeWriteP
  apply find?_map_congr
  intro a _
  have hij : (i == j) = false := beq_eq_false_iff_ne.mpr (Ne.symm hne)
  by_cases h : a.id = i
  · simp [h, hid, hij]
  · simp [h]

theorem findOwnedP_delete_ne (s : PStore) (uid i j : String) (hne : j ≠ i) :
    findOwnedP (storeDeleteP s i) uid j = findOwnedP s uid j := by
  unfold findOwnedP storeDeleteP
  apply find?_filter_of_imp
  intro a _ ha
  simp only [Bool.and_eq_true, beq_iff_eq] at ha
  simp [ha.1, hne]

theorem recordsWithIdP_write_ne (s : PStore) (i j : String) (p' : Playthrough)
    (hid : p'.id = i) (hne : j ≠ i) :
    recordsWithIdP (storeWriteP s i p') j = recordsWithIdP s j := by
  unfold recordsWithIdP storeWriteP
  apply filter_map_congr
  intro a _
  by_cases h : a.id = i
  · simp [h, hid, hne, Ne.symm hne]
  · simp [h]

theorem recordsWithIdP_delete_ne (s : PStore) (i j : String) (hne : j ≠ i) :
    recordsWithIdP (storeDeleteP s i) j = recordsWithIdP s j := by
  unfold recordsWithIdP storeDeleteP
  apply filter_filter_of_imp
  intro a _ ha
  simp only [beq_iff_eq] at ha
  simp [ha, hne]

theorem recordsWithIdP_write_self (s : PStore) (i : String) (p' : Playthrough)
    (hid : p'.id = i) :
    recordsWithIdP (storeWriteP s i p') i = (recordsWithIdP s i).map (fun _ => p') := by
  unfold recordsWithIdP storeWriteP
  apply filter_map_const
  · intro a _
    by_cases h : a.id = i
    · simp [h, hid]
    · simp [h]
  · intro a _ ha
    simp only [beq_iff_eq] at ha
    simp [ha]

theorem recordsWithIdP_delete_self (s : PStore) (i : String) :
    recordsWithIdP (storeDeleteP s i) i = [] := by
  unfold recordsWithIdP storeDeleteP
  apply filter_filter_none
  intro a _ ha
  simp only [Bool.not_eq_true', beq_eq_false_iff_ne] at ha
  simp [ha]

theorem findOwnedC_write_ne (s : CStore) (uid i j : String) (c' : CollectionItem)
    (hid : c'.id = i) (hne : j ≠ i) :
    findOwnedC (storeWriteC s i c') uid j = findOwnedC s uid j := by
  unfold findOwnedC storeWriteC
  apply find?_map_congr
  intro a _
  have hij : (i == j) = false := beq_eq_false_iff_ne.mpr (Ne.symm hne)
  by_cases h : a.id = i
  · simp [h, hid, hij]
  · simp [h]

theorem recordsWithIdC_write_ne (s : CStore) (i j : String) (c' : CollectionItem)
    (hid : c'.id = i) (hne : j ≠ i) :
    recordsWithIdC (storeWriteC s i c') j = recordsWithIdC s j := by
  unfold recordsWithIdC storeWriteC
  apply filter_map_congr
  intro a _
  by_cases h : a.id = i
  · simp [h, hid, hne, Ne.symm hne]
  · simp [h]

theorem recordsWithIdC_write_self (s : CStore) (i : String) (c' : CollectionItem)
    (hid : c'.id = i) :
    recordsWithIdC (storeWriteC s i c') i = (recordsWithIdC s i).map (fun _ => c') := by
  unfold recordsWithIdC storeWriteC
  apply filter_map_const
  · intro a _
    by_cases h : a.id = i
    · simp [h, hid]
    · simp [h]
  · intro a _ ha
    simp only [beq_iff_eq] at ha
    simp [ha]

/-! ### Per-item step lemmas (playthrough bulk) -/

theorem bulkItemApply_write_id (act : BulkAction) (d : PBulkData) (now : Nat)
    (p p' : Playthrough) (res : BulkResultItem)
    (h : bulkItemApply act d now p = .write p' res) : p'.id = p.id := by
  cases act <;> simp only [bulkItemApply] at h <;>
    (repeat' split at h) <;> (try (cases h)) <;> rfl

theorem bulkItemApply_write_resid (act : BulkAction) (d : PBulkData) (now : Nat)
    (p p' : Playthrough) (res : BulkResultItem)
    (h : bulkItemApply act d now p = .write p' res) : res.id = p.id := by
  cases act <;> simp only [bulkItemApply] at h <;>
    (repeat' split at h) <;> (try (cases h)) <;> rfl

theorem bulkItemApply_del_resid (act : BulkAction) (d : PBulkData) (now : Nat)
    (p : Playthrough) (res : BulkResultItem)
    (h : bulkItemApply act d now p = .del res) : res.id = p.id := by
  cases act <;> simp only [bulkItemApply] at h <;>
    (repeat' split at h) <;> (try (cases h)) <;> rfl

theorem processOneP_inl_resid (uid : String) (act : BulkAction) (d : PBulkData)
    (now : Nat) (s : PStore) (pid : String) (s' : PStore) (r : BulkResultItem)
    (h : processOneP uid act d now s pid = .inl (s', r)) : r.id = pid := by
  unfold processOneP at h
  cases hf : findOwnedP s uid pid with
  | none => rw [hf] at h; simp only [] at h; exact Sum.noConfusion h
  | some p =>
    rw [hf] at h; simp only [] at h
    have hpid := (findOwnedP_some hf).1
    cases ha : bulkItemApply act d now p with
    | write p' res =>
      rw [ha] at h; simp only [] at h; cases h
      rw [bulkItemApply_write_resid _ _ _ _ _ _ ha, hpid]
    | del res =>
      rw [ha] at h; simp only [] at h; cases h
      rw [bulkItemApply_del_resid _ _ _ _ _ ha, hpid]
    | fail msg => rw [ha] at h; simp only [] at h; exact Sum.noConfusion h

theorem processOneP_inr_id (uid : String) (act : BulkAction) (d : PBulkData)
    (now : Nat) (s : PStore) (pid : String) (f : BulkFailedItem)
    (h : processOneP uid act d now s pid = .inr f) : f.id = pid := by
  unfold processOneP at h
  cases hf : findOwnedP s uid pid with
  | none => rw [hf] at h; simp only [] at h; cases h; rfl
  | some p =>
    rw [hf] at h; simp only [] at h
    cases ha : bulkItemApply act d now p with
    | write p' res => rw [ha] at h; simp only [] at h; exact Sum.noConfusion h
    | del res => rw [ha] at h; simp only [] at h; exact Sum.noConfusion h
    | fail msg => rw [ha] at h; simp only [] at h; cases h; rfl

theorem processOneP_frame (uid : String) (act : BulkAction) (d : PBulkData)
    (now : Nat) (s : PStore) (i j : String) (hne : j ≠ i)
    (s' : PStore) (r : BulkResultItem)
    (h : processOneP uid act d now s j = .inl (s', r)) :
    findOwnedP s' uid i = findOwnedP s uid i
      ∧ recordsWithIdP s' i = recordsWithIdP s i := by
  unfold processOneP at h
  cases hf : findOwnedP s uid j with
  | none => rw [hf] at h; simp only [] at h; exact Sum.noConfusion h
  | some p =>
    rw [hf] at h; simp only [] at h
    have hpid := (findOwnedP_some hf).1
    cases ha : bulkItemApply act d now p with
    | write p' res =>
      rw [ha] at h; simp only [] at h; cases h
      have hid : p'.id = j := (bulkItemApply_write_id _ _ _ _ _ _ ha).trans hpid
      exact ⟨findOwnedP_write_ne s uid j i p' hid (Ne.symm hne),
        recordsWithIdP_write_ne s j i p' hid (Ne.symm hne)⟩
    | del res =>
      rw [ha] at h; simp only [] at h; cases h
      exact ⟨findOwnedP_delete_ne s uid j i (Ne.symm hne),
        recordsWithIdP_delete_ne s j i (Ne.symm hne)⟩
    | fail msg => rw [ha] at h; simp only [] at h; exact Sum.noConfusion h

theorem processOneP_det (uid : String) (act : BulkAction) (d : PBulkData)
    (now : Nat) (s db : PStore) (i : String)
    (h1 : findOwnedP s uid i = findOwnedP db uid i)
    (h2 : recordsWithIdP s i = recordsWithIdP db i) :
    (∀ s1 r, processOneP uid act d now db i = .inl (s1, r) →
      ∃ sx, processOneP uid act d now s i = .inl (sx, r)
        ∧ recordsWithIdP sx i = recordsWithIdP s1 i)
    ∧ (∀ f, processOneP uid act d now db i = .inr f →
      processOneP uid act d now s i = .inr f) := by
  unfold processOneP
  rw [h1]
  cases hf : findOwnedP db uid i with
  | none =>
    simp only []
    exact ⟨fun s1 r h => Sum.noConfusion h, fun f h => h⟩
  | some p =>
    simp only []
    have hpid := (findOwnedP_some hf).1
    cases ha : bulkItemApply act d now p with
    | write p' res =>
      simp only []
      refine ⟨fun s1 r h => ?_, fun f h => Sum.noConfusion h⟩
      cases h
      have hid : p'.id = i := (bulkItemApply_write_id _ _ _ _ _ _ ha).trans hpid
      refine ⟨storeWriteP s i p', ?_, ?_⟩
      · rfl
      · rw [recordsWithIdP_write_self s i p' hid,
          recordsWithIdP_write_self db i p' hid, h2]
    | del res =>
      simp only []
      refine ⟨fun s1 r h => ?_, fun f h => Sum.noConfusion h⟩
      cases h
      refine ⟨storeDeleteP s i, ?_, ?_⟩
      · rfl
      · rw [recordsWithIdP_delete_self, recordsWithIdP_delete_self]
    | fail msg =>
      simp only []
      exact ⟨fun s1 r h => Sum.noConfusion h, fun f h => h⟩

/-! ### Loop-level lemmas (playthrough bulk) -/

theorem bulkLoopP_counts (uid : String) (act : BulkAction) (d : PBulkData) (now : Nat) :
    ∀ (ids : List String) (s : PStore) (a : List BulkResultItem) (b : List BulkFailedItem),
      (bulkLoopP uid act d now ids s a b).2.1.length
        + (bulkLoopP uid act d now ids s a b).2.2.length
        = a.length + b.length + ids.length
  | [], s, a, b => by simp [bulkLoopP]
  | pid :: rest, s, a, b => by
    unfold bulkLoopP
    cases hstep : processOneP uid act d now s pid with
    | inl x =>
      have := bulkLoopP_counts uid act d now rest x.1 (a ++ [x.2]) b
      simp only [List.length_append, List.length_cons, List.length_nil] at this ⊢
      omega
    | inr f =>
      have := bulkLoopP_counts uid act d now rest s a (b ++ [f])
      simp only [List.length_append, List.length_cons, List.length_nil] at this ⊢
      omega

theorem bulkLoopP_frame (uid : String) (act : BulkAction) (d : PBulkData) (now : Nat)
    (i : String) :
    ∀ (ids : List String) (s : PStore) (a : List BulkResultItem) (b : List BulkFailedItem),
      (∀ j ∈ ids, j ≠ i) →
      findOwnedP (bulkLoopP uid act d now ids s a b).1 uid i = findOwnedP s uid i
      ∧ recordsWithIdP (bulkLoopP uid act d now ids s a b).1 i = recordsWithIdP s i
      ∧ (bulkLoopP uid act d now ids s a b).2.1.filter (fun x => x.id == i)
          = a.filter (fun x => x.id == i)
      ∧ (bulkLoopP uid act d now ids s a b).2.2.filter (fun x => x.id == i)
          = b.filter (fun x => x.id == i)
  | [], s, a, b, _ => ⟨rfl, rfl, rfl, rfl⟩
  | pid :: rest, s, a, b, hne => by
    have hpid : pid ≠ i := hne pid (List.mem_cons_self pid rest)
    have hrest : ∀ j ∈ rest, j ≠ i := fun j hj => hne j (List.mem_cons_of_mem pid hj)
    unfold bulkLoopP
    cases hstep : processOneP uid act d now s pid with
    | inl x =>
      have hfr := processOneP_frame uid act d now s i pid hpid x.1 x.2
        (by rw [hstep])
      have ih := bulkLoopP_frame uid act d now i rest x.1 (a ++ [x.2]) b hrest
      have hrid : x.2.id = pid := processOneP_inl_resid uid act d now s pid x.1 x.2
        (by rw [hstep])
      have hfilter : (a ++ [x.2]).filter (fun y => y.id == i)
          = a.filter (fun y => y.id == i) := by
        rw [List.filter_append]
        have : (x.2.id == i) = false := beq_eq_false_iff_ne.mpr (hrid ▸ hpid)
        simp [this]
      exact ⟨ih.1.trans hfr.1, ih.2.1.trans hfr.2, ih.2.2.1.trans hfilter, ih.2.2.2⟩
    | inr f =>
      have ih := bulkLoopP_frame uid act d now i rest s a (b ++ [f]) hrest
      have hfid : f.id = pid := processOneP_inr_id uid act d now s pid f hstep
      have hfilter : (b ++ [f]).filter (fun y => y.id == i)
          = b.filter (fun y => y.id == i) := by
        rw [List.filter_append]
        have : (f.id == i) = false := beq_eq_false_iff_ne.mpr (hfid ▸ hpid)
        simp [this]
      exact ⟨ih.1, ih.2.1, ih.2.2.1, ih.2.2.2.trans hfilter⟩

theorem bulkLoopP_main (uid : String) (act : BulkAction) (d : PBulkData) (now : Nat)
    (i : String) (db : PStore) :
    ∀ (ids : List String) (s : PStore) (a : List BulkResultItem) (b : List BulkFailedItem),
      ids.Nodup → i ∈ ids →
      findOwnedP s uid i = findOwnedP db uid i →
      recordsWithIdP s i = recordsWithIdP db i →
      (∀ s1 r, processOneP uid act d now db i = .inl (s1, r) →
        (bulkLoopP uid act d now ids s a b).2.1.filter (fun x => x.id == i)
            = a.filter (fun x => x.id == i) ++ [r]
        ∧ (bulkLoopP uid act d now ids s a b).2.2.filter (fun x => x.id == i)
            = b.filter (fun x => x.id == i)
        ∧ recordsWithIdP (bulkLoopP uid act d now ids s a b).1 i = recordsWithIdP s1 i)
      ∧ (∀ f, processOneP uid act d now db i = .inr f →
        (bulkLoopP uid act d now ids s a b).2.1.filter (fun x => x.id == i)
            = a.filter (fun x => x.id == i)
        ∧ (bulkLoopP uid act d now ids s a b).2.2.filter (fun x => x.id == i)
            = b.filter (fun x => x.id == i) ++ [f]
        ∧ recordsWithIdP (bulkLoopP uid act d now ids s a b).1 i = recordsWithIdP db i)
  | [], _, _, _, _, him, _, _ => absurd him (List.not_mem_nil i)
  | pid :: rest, s, a, b, hnd, him, h1, h2 => by
    have hnd' := List.nodup_cons.mp hnd
    by_cases hpi : pid = i
    · subst hpi
      have hdet := processOneP_det uid act d now s db pid h1 h2
      have hirest : ∀ j ∈ rest, j ≠ pid := fun j hj hji => hnd'.1 (hji ▸ hj)
      constructor
      · intro s1 r hdb
        obtain ⟨sx, hsx, hrec⟩ := hdet.1 s1 r hdb
        have hrid : r.id = pid := processOneP_inl_resid uid act d now db pid s1 r hdb
        unfold bulkLoopP
        rw [hsx]
        have hfr := bulkLoopP_frame uid act d now pid rest sx (a ++ [r]) b hirest
        refine ⟨?_, ?_, ?_⟩
        · rw [hfr.2.2.1, List.filter_append]
          simp [hrid]
        · exact hfr.2.2.2
        · rw [hfr.2.1, hrec]
      · intro f hdb
        have hs := hdet.2 f hdb
        have hfid : f.id = pid := processOneP_inr_id uid act d now db pid f hdb
        unfold bulkLoopP
        rw [hs]
        have hfr := bulkLoopP_frame uid act d now pid rest s a (b ++ [f]) hirest
        refine ⟨?_, ?_, ?_⟩
        · exact hfr.2.2.1
        · rw [hfr.2.2.2, List.filter_append]
          simp [hfid]
        · rw [hfr.2.1, h2]
    · have him' : i ∈ rest := by
        cases List.mem_cons.mp him with
        | inl h => exact absurd h.symm hpi
        | inr h => exact h
      unfold bulkLoopP
      cases hstep : processOneP uid act d now s pid with
      | inl x =>
        have hfr := processOneP_frame uid act d now s i pid hpi x.1 x.2 (by rw [hstep])
        have hrid : x.2.id = pid := processOneP_inl_resid uid act d now s pid x.1 x.2
          (by rw [hstep])
        have hfilter : (a ++ [x.2]).filter (fun y => y.id == i)
            = a.filter (fun y => y.id == i) := by
          rw [List.filter_append]
          have : (x.2.id == i) = false := beq_eq_false_iff_ne.mpr (hrid ▸ hpi)
          simp [this]
        have ih := bulkLoopP_main uid act d now i db rest x.1 (a ++ [x.2]) b hnd'.2 him'
          (hfr.1.trans h1) (hfr.2.trans h2)
        constructor
        · intro s1 r hdb
          have := ih.1 s1 r hdb
          exact ⟨by rw [this.1, hfilter], this.2.1, this.2.2⟩
        · intro f hdb
          have := ih.2 f hdb
          exact ⟨by rw [this.1, hfilter], this.2.1, this.2.2⟩
      | inr f0 =>
        have hfid : f0.id = pid := processOneP_inr_id uid act d now s pid f0 hstep
        have hfilter : (b ++ [f0]).filter (fun y => y.id == i)
            = b.filter (fun y => y.id == i) := by
          rw [List.filter_append]
          have : (f0.id == i) = false := beq_eq_false_iff_ne.mpr (hfid ▸ hpi)
          simp [this]
        have ih := bulkLoopP_main uid act d now i db rest s a (b ++ [f0]) hnd'.2 him' h1 h2
        constructor
        · intro s1 r hdb
          have := ih.1 s1 r hdb
          exact ⟨this.1, by rw [this.2.1, hfilter], this.2.2⟩
        · intro f hdb
          have := ih.2 f hdb
          exact ⟨this.1, by rw [this.2.1, hfilter], this.2.2⟩

/-! ### Per-item and loop lemmas (collection bulk) -/

theorem collItemApply_write_id (act : BulkCollectionAction) (d : CollBulkData)
    (now : Nat) (c c' : CollectionItem)
    (h : collItemApply act d now c = .write c') : c'.id = c.id := by
  cases act <;> simp only [collItemApply] at h <;>
    (repeat' split at h) <;> (try (cases h)) <;> rfl

theorem processOneC_inl_resid (uid : String) (act : BulkCollectionAction)
    (d : CollBulkData) (now : Nat) (s : CStore) (cid : String) (s' : CStore)
    (r : BulkCollectionResult)
    (h : processOneC uid act d now s cid = .inl (s', r)) : r.id = cid := by
  unfold processOneC at h
  cases hf : findOwnedC s uid cid with
  | none => rw [hf] at h; simp only [] at h; exact Sum.noConfusion h
  | some c =>
    rw [hf] at h; simp only [] at h
    cases ha : collItemApply act d now c with
    | write c' => rw [ha] at h; simp only [] at h; cases h; rfl
    | fail msg => rw [ha] at h; simp only [] at h; exact Sum.noConfusion h

theorem processOneC_inr_id (uid : String) (act : BulkCollectionAction)
    (d : CollBulkData) (now : Nat) (s : CStore) (cid : String)
    (r : BulkCollectionResult)
    (h : processOneC uid act d now s cid = .inr r) : r.id = cid := by
  unfold processOneC at h
  cases hf : findOwnedC s uid cid with
  | none => rw [hf] at h; simp only [] at h; cases h; rfl
  | some c =>
    rw [hf] at h; simp only [] at h
    cases ha : collItemApply act d now c with
    | write c' => rw [ha] at h; simp only [] at h; exact Sum.noConfusion h
    | fail msg => rw [ha] at h; simp only [] at h; cases h; rfl

theorem processOneC_frame (uid : String) (act : BulkCollectionAction)
    (d : CollBulkData) (now : Nat) (s : CStore) (i j : String) (hne : j ≠ i)
    (s' : CStore) (r : BulkCollectionResult)
    (h : processOneC uid act d now s j = .inl (s', r)) :
    findOwnedC s' uid i = findOwnedC s uid i
      ∧ recordsWithIdC s' i = recordsWithIdC s i := by
  unfold processOneC at h
  cases hf : findOwnedC s uid j with
  | none => rw [hf] at h; simp only [] at h; exact Sum.noConfusion h
  | some c =>
    rw [hf] at h; simp only [] at h
    have hcid := (findOwnedC_some hf).1
    cases ha : collItemApply act d now c with
    | write c' =>
      rw [ha] at h; simp only [] at h; cases h
      have hid : c'.id = j := (collItemApply_write_id _ _ _ _ _ ha).trans hcid
      exact ⟨findOwnedC_write_ne s uid j i c' hid (Ne.symm hne),
        recordsWithIdC_write_ne s j i c' hid (Ne.symm hne)⟩
    | fail msg => rw [ha] at h; simp only [] at h; exact Sum.noConfusion h

theorem processOneC_det (uid : String) (act : BulkCollectionAction)
    (d : CollBulkData) (now : Nat) (s db : CStore) (i : String)
    (h1 : findOwnedC s uid i = findOwnedC db uid i)
    (h2 : recordsWithIdC s i = recordsWithIdC db i) :
    (∀ s1 r, processOneC uid act d now db i = .inl (s1, r) →
      ∃ sx, processOneC uid act d now s i = .inl (sx, r)
        ∧ recordsWithIdC sx i = recordsWithIdC s1 i)
    ∧ (∀ r, processOneC uid act d now db i = .inr r →
      processOneC uid act d now s i = .inr r) := by
  unfold processOneC
  rw [h1]
  cases hf : findOwnedC db uid i with
  | none =>
    simp only []
    exact ⟨fun s1 r h => Sum.noConfusion h, fun r h => h⟩
  | some c =>
    simp only []
    have hcid := (findOwnedC_some hf).1
    cases ha : collItemApply act d now c with
    | write c' =>
      simp only []
      refine ⟨fun s1 r h => ?_, fun r h => Sum.noConfusion h⟩
      cases h
      have hid : c'.id = i := (collItemApply_write_id _ _ _ _ _ ha).trans hcid
      refine ⟨storeWriteC s i c', ?_, ?_⟩
      · rfl
      · rw [recordsWithIdC_write_self s i c' hid,
          recordsWithIdC_write_self db i c' hid, h2]
    | fail msg =>
      simp only []
      exact ⟨fun s1 r h => Sum.noConfusion h, fun r h => h⟩

theorem bulkLoopC_inv (uid : String) (act : BulkCollectionAction) (d : CollBulkData)
    (now : Nat) :
    ∀ (ids : List String) (s : CStore) (r0 : List BulkCollectionResult) (u0 : Nat),
      (bulkLoopC uid act d now ids s r0 u0).2.1.length = r0.length + ids.length
      ∧ (bulkLoopC uid act d now ids s r0 u0).2.2
          + ((bulkLoopC uid act d now ids s r0 u0).2.1.countP (fun r => !r.success))
        = u0 + (r0.countP (fun r => !r.success)) + ids.length
  | [], s, r0, u0 => by simp [bulkLoopC]
  | cid :: rest, s, r0, u0 => by
    unfold bulkLoopC
    cases hstep : processOneC uid act d now s cid with
    | inl x =>
      have hsucc : x.2.success = true := by
        unfold processOneC at hstep
        cases hf : findOwnedC s uid cid with
        | none => rw [hf] at hstep; simp only [] at hstep; exact Sum.noConfusion hstep
        | some c =>
          rw [hf] at hstep; simp only [] at hstep
          cases ha : collItemApply act d now c with
          | write c' => rw [ha] at hstep; simp only [] at hstep; cases hstep; rfl
          | fail msg => rw [ha] at hstep; simp only [] at hstep; exact Sum.noConfusion hstep
      have ih := bulkLoopC_inv uid act d now rest x.1 (r0 ++ [x.2]) (u0 + 1)
      simp [List.length_append, List.length_cons, List.length_nil,
        List.countP_append, List.countP_cons, List.countP_nil, hsucc] at ih ⊢
      omega
    | inr f =>
      have hfailed : f.success = false := by
        unfold processOneC at hstep
        cases hf : findOwnedC s uid cid with
        | none => rw [hf] at hstep; simp only [] at hstep; cases hstep; rfl
        | some c =>
          rw [hf] at hstep; simp only [] at hstep
          cases ha : collItemApply act d now c with
          | write c' => rw [ha] at hstep; simp only [] at hstep; exact Sum.noConfusion hstep
          | fail msg => rw [ha] at hstep; simp only [] at hstep; cases hstep; rfl
      have ih := bulkLoopC_inv uid act d now rest s (r0 ++ [f]) u0
      simp [List.length_append, List.length_cons, List.length_nil,
        List.countP_append, List.countP_cons, List.countP_nil, hfailed] at ih ⊢
      omega

theorem bulkLoopC_frame (uid : String) (act : BulkCollectionAction) (d : CollBulkData)
    (now : Nat) (i : String) :
    ∀ (ids : List String) (s : CStore) (r0 : List BulkCollectionResult) (u0 : Nat),
      (∀ j ∈ ids, j ≠ i) →
      findOwnedC (bulkLoopC uid act d now ids s r0 u0).1 uid i = findOwnedC s uid i
      ∧ recordsWithIdC (bulkLoopC uid act d now ids s r0 u0).1 i = recordsWithIdC s i
      ∧ (bulkLoopC uid act d now ids s r0 u0).2.1.filter (fun x => x.id == i)
          = r0.filter (fun x => x.id == i)
  | [], s, r0, u0, _ => ⟨rfl, rfl, rfl⟩
  | cid :: rest, s, r0, u0, hne => by
    have hcid : cid ≠ i := hne cid (List.mem_cons_self cid rest)
    have hrest : ∀ j ∈ rest, j ≠ i := fun j hj => hne j (List.mem_cons_of_mem cid hj)
    unfold bulkLoopC
    cases hstep : processOneC uid act d now s cid with
    | inl x =>
      have hfr := processOneC_frame uid act d now s i cid hcid x.1 x.2 (by rw [hstep])
      have hrid : x.2.id = cid := processOneC_inl_resid uid act d now s cid x.1 x.2
        (by rw [hstep])
      have ih := bulkLoopC_frame uid act d now i rest x.1 (r0 ++ [x.2]) (u0 + 1) hrest
      have hfilter : (r0 ++ [x.2]).filter (fun y => y.id == i)
          = r0.filter (fun y => y.id == i) := by
        rw [List.filter_append]
        have : (x.2.id == i) = false := beq_eq_false_iff_ne.mpr (hrid ▸ hcid)
        simp [this]
      exact ⟨ih.1.trans hfr.1, ih.2.1.trans hfr.2, ih.2.2.trans hfilter⟩
    | inr f =>
      have hfid : f.id = cid := processOneC_inr_id uid act d now s cid f hstep
      have ih := bulkLoopC_frame uid act d now i rest s (r0 ++ [f]) u0 hrest
      have hfilter : (r0 ++ [f]).filter (fun y => y.id == i)
          = r0.filter (fun y => y.id == i) := by
        rw [List.filter_append]
        have : (f.id == i) = false := beq_eq_false_iff_ne.mpr (hfid ▸ hcid)
        simp [this]
      exact ⟨ih.1, ih.2.1, ih.2.2.trans hfilter⟩

theorem bulkLoopC_main (uid : String) (act : BulkCollectionAction) (d : CollBulkData)
    (now : Nat) (i : String) (db : CStore) :
    ∀ (ids : List String) (s : CStore) (r0 : List BulkCollectionResult) (u0 : Nat),
      ids.Nodup → i ∈ ids →
      findOwnedC s uid i = findOwnedC db uid i →
      recordsWithIdC s i = recordsWithIdC db i →
      (∀ s1 r, processOneC uid act d now db i = .inl (s1, r) →
        (bulkLoopC uid act d now ids s r0 u0).2.1.filter (fun x => x.id == i)
            = r0.filter (fun x => x.id == i) ++ [r]
        ∧ recordsWithIdC (bulkLoopC uid act d now ids s r0 u0).1 i = recordsWithIdC s1 i)
      ∧ (∀ r, processOneC uid act d now db i = .inr r →
        (bulkLoopC uid act d now ids s r0 u0).2.1.filter (fun x => x.id == i)
            = r0.filter (fun x => x.id == i) ++ [r]
        ∧ recordsWithIdC (bulkLoopC uid act d now ids s r0 u0).1 i = recordsWithIdC db i)
  | [], _, _, _, _, him, _, _ => absurd him (List.not_mem_nil i)
  | cid :: rest, s, r0, u0, hnd, him, h1, h2 => by
    have hnd' := List.nodup_cons.mp hnd
    by_cases hci : cid = i
    · subst hci
      have hdet := processOneC_det uid act d now s db cid h1 h2
      have hirest : ∀ j ∈ rest, j ≠ cid := fun j hj hji => hnd'.1 (hji ▸ hj)
      constructor
      · intro s1 r hdb
        obtain ⟨sx, hsx, hrec⟩ := hdet.1 s1 r hdb
        have hrid : r.id = cid := processOneC_inl_resid uid act d now db cid s1 r hdb
        unfold bulkLoopC
        rw [hsx]
        have hfr := bulkLoopC_frame uid act d now cid rest sx (r0 ++ [r]) (u0 + 1) hirest
        refine ⟨?_, ?_⟩
        · rw [hfr.2.2, List.filter_append]
          simp [hrid]
        · rw [hfr.2.1, hrec]
      · intro r hdb
        have hs := hdet.2 r hdb
        have hrid : r.id = cid := processOneC_inr_id uid act d now db cid r hdb
        unfold bulkLoopC
        rw [hs]
        have hfr := bulkLoopC_frame uid act d now cid rest s (r0 ++ [r]) u0 hirest
        refine ⟨?_, ?_⟩
        · rw [hfr.2.2, List.filter_append]
          simp [hrid]
        · rw [hfr.2.1, h2]
    · have him' : i ∈ rest := by
        cases List.mem_cons.mp him with
        | inl h => exact absurd h.symm hci
        | inr h => exact h
      unfold bulkLoopC
      cases hstep : processOneC uid act d now s cid with
      | inl x =>
        have hfr := processOneC_frame uid act d now s i cid hci x.1 x.2 (by rw [hstep])
        have hrid : x.2.id = cid := processOneC_inl_resid uid act d now s cid x.1 x.2
          (by rw [hstep])
        have hfilter : (r0 ++ [x.2]).filter (fun y => y.id == i)
            = r0.filter (fun y => y.id == i) := by
          rw [List.filter_append]
          have : (x.2.id == i) = false := beq_eq_false_iff_ne.mpr (hrid ▸ hci)
          simp [this]
        have ih := bulkLoopC_main uid act d now i db rest x.1 (r0 ++ [x.2]) (u0 + 1)
          hnd'.2 him' (hfr.1.trans h1) (hfr.2.trans h2)
        constructor
        · intro s1 r hdb
          have := ih.1 s1 r hdb
          exact ⟨by rw [this.1, hfilter], this.2⟩
        · intro r hdb
          have := ih.2 r hdb
          exact ⟨by rw [this.1, hfilter], this.2⟩
      | inr f0 =>
        have hfid : f0.id = cid := processOneC_inr_id uid act d now s cid f0 hstep
        have hfilter : (r0 ++ [f0]).filter (fun y => y.id == i)
            = r0.filter (fun y => y.id == i) := by
          rw [List.filter_append]
          have : (f0.id == i) = false := beq_eq_false_iff_ne.mpr (hfid ▸ hci)
          simp [this]
        have ih := bulkLoopC_main uid act d now i db rest s (r0 ++ [f0]) u0 hnd'.2 him' h1 h2
        constructor
        · intro s1 r hdb
          have := ih.1 s1 r hdb
          exact ⟨by rw [this.1, hfilter], this.2⟩
        · intro r hdb
          have := ih.2 r hdb
          exact ⟨by rw [this.1, hfilter], this.2⟩

/-- C1: in a bulk request (playthrough or collection-item), every submitted id
is processed to completion — the loop never aborts and yields exactly one
outcome per id — and, for pairwise-distinct targets, each id's outcome and its
committed records are exactly those of processing that id alone against the
original store: one item's failure never rolls back, skips, or alters any
other item's mutation. -/
theorem c1_bulk_isolation :
    (∀ (db : PStore) (uid : String) (act : BulkAction) (d : PBulkData) (now : Nat)
        (ids : List String), ids.Nodup → ∀ i ∈ ids,
      (∀ s1 r, processOneP uid act d now db i = .inl (s1, r) →
        (bulkLoopP uid act d now ids db [] []).2.1.filter (fun x => x.id == i) = [r]
        ∧ (bulkLoopP uid act d now ids db [] []).2.2.filter (fun x => x.id == i) = []
        ∧ recordsWithIdP (bulkLoopP uid act d now ids db [] []).1 i
            = recordsWithIdP s1 i)
      ∧ (∀ f, processOneP uid act d now db i = .inr f →
        (bulkLoopP uid act d now ids db [] []).2.1.filter (fun x => x.id == i) = []
        ∧ (bulkLoopP uid act d now ids db [] []).2.2.filter (fun x => x.id == i) = [f]
        ∧ recordsWithIdP (bulkLoopP uid act d now ids db [] []).1 i
            = recordsWithIdP db i))
    ∧ (∀ (db : PStore) (uid : String) (req : PlaythroughBulkRequest) (now : Nat),
        requiredDataOkP req.action req.data = true →
        ∃ out, bulk_playthrough_operations db uid req now = .ok out
          ∧ out.2.1.items.length + (out.2.1.failed_items.getD []).length
              = req.playthrough_ids.length)
    ∧ (∀ (db : CStore) (uid : String) (act : BulkCollectionAction) (d : CollBulkData)
        (now : Nat) (ids : List String), ids.Nodup → ∀ i ∈ ids,
      (∀ s1 r, processOneC uid act d now db i = .inl (s1, r) →
        (bulkLoopC uid act d now ids db [] 0).2.1.filter (fun x => x.id == i) = [r]
        ∧ recordsWithIdC (bulkLoopC uid act d now ids db [] 0).1 i
            = recordsWithIdC s1 i)
      ∧ (∀ r, processOneC uid act d now db i = .inr r →
        (bulkLoopC uid act d now ids db [] 0).2.1.filter (fun x => x.id == i) = [r]
        ∧ recordsWithIdC (bulkLoopC uid act d now ids db [] 0).1 i
            = recordsWithIdC db i))
    ∧ (∀ (db : CStore) (uid : String) (req : BulkCollectionRequest) (now : Nat),
        requiredDataOkC req.action req.data = true →
        ∃ out, bulk_collection_operations db uid req now = .ok out
          ∧ out.2.1.results.length = req.collection_ids.length) := by
  refine ⟨?_, ?_, ?_, ?_⟩
  · intro db uid act d now ids hnd i hi
    have hm := bulkLoopP_main uid act d now i db ids db [] [] hnd hi rfl rfl
    constructor
    · intro s1 r h
      have := hm.1 s1 r h
      simpa using this
    · intro f h
      have := hm.2 f h
      simpa using this
  · intro db uid req now hreq
    unfold bulk_playthrough_operations
    rw [hreq]
    simp only [Bool.not_true, Bool.false_eq_true, if_false]
    refine ⟨_, rfl, ?_⟩
    have hc := bulkLoopP_counts uid req.action (req.data.getD {}) now
      req.playthrough_ids db [] []
    simp only [List.length_nil, Nat.zero_add] at hc
    cases hfe : (bulkLoopP uid req.action (req.data.getD {}) now
        req.playthrough_ids db [] []).2.2.isEmpty with
    | true =>
      have : (bulkLoopP uid req.action (req.data.getD {}) now
          req.playthrough_ids db [] []).2.2 = [] := List.isEmpty_iff.mp hfe
      simp only [hfe, if_true, this, List.length_nil] at hc ⊢
      simpa using hc
    | false =>
      simp only [hfe, Bool.false_eq_true, if_false]
      simpa using hc
  · intro db uid act d now ids hnd i hi
    have hm := bulkLoopC_main uid act d now i db ids db [] 0 hnd hi rfl rfl
    constructor
    · intro s1 r h
      have := hm.1 s1 r h
      simpa using this
    · intro r h
      have := hm.2 r h
      simpa using this
  · intro db uid req now hreq
    unfold bulk_collection_operations
    rw [hreq]
    simp only [Bool.not_true, Bool.false_eq_true, if_false]
    refine ⟨_, rfl, ?_⟩
    have hc := (bulkLoopC_inv uid req.action (req.data.getD {}) now
      req.collection_ids db [] 0).1
    simpa using hc

/-- C3: the transition-legality function returns true on every reflexive pair
over the six statuses (including MASTERED → MASTERED), rejects every move out
of MASTERED (for arbitrary target strings, not just the six), and on distinct
status pairs agrees exactly with the spec's edge table. -/
theorem c3_transition_table :
    (∀ s ∈ statusStrings, _is_valid_status_transition s s = true)
    ∧ (∀ x : String, x ≠ "MASTERED" →
        _is_valid_status_transition "MASTERED" x = false)
    ∧ (∀ f ∈ statusStrings, ∀ t ∈ statusStrings, f ≠ t →
        (_is_valid_status_transition f t = true ↔ (f, t) ∈ specEdgeTable)) := by
  refine ⟨by decide, ?_, by decide⟩
  intro x hx
  simp only [_is_valid_status_transition, validTransitions]
  simp [Ne.symm hx]

/-- Witness for C3 at concrete inputs: MASTERED → PLAYING is rejected. -/
theorem c3_transition_table_witness :
    _is_valid_status_transition "MASTERED" "PLAYING" = false :=
  c3_transition_table.2.1 "PLAYING" (by decide)

/-- Witness for C1 at the spec's scenario: targets [pt-a, pt-b, pt-c] where
pt-b does not exist; pt-a's status update commits and its outcome is exactly
that of processing pt-a alone. -/
theorem c1_bulk_isolation_witness :
    (bulkLoopP "user-1" BulkAction.update_status
        { status := some (JsonVal.s "DROPPED") } 7 ["pt-a", "pt-b", "pt-c"]
        fixtureDb [] []).2.1.filter (fun x => x.id == "pt-a")
      = [{ id := "pt-a", status := some "DROPPED" }]
    ∧ (bulkLoopP "user-1" BulkAction.update_status
        { status := some (JsonVal.s "DROPPED") } 7 ["pt-a", "pt-b", "pt-c"]
        fixtureDb [] []).2.2.filter (fun x => x.id == "pt-a") = []
    ∧ recordsWithIdP (bulkLoopP "user-1" BulkAction.update_status
        { status := some (JsonVal.s "DROPPED") } 7 ["pt-a", "pt-b", "pt-c"]
        fixtureDb [] []).1 "pt-a"
      = [{ ptA with status := "DROPPED", updated_at := 7 }] := by
  have h := c1_bulk_isolation.1 fixtureDb "user-1" .update_status
    { status := some (JsonVal.s "DROPPED") } 7 ["pt-a", "pt-b", "pt-c"]
    (by decide) "pt-a" (by decide)
  have h2 := h.1
    (storeWriteP fixtureDb "pt-a" { ptA with status := "DROPPED", updated_at := 7 })
    { id := "pt-a", status := some "DROPPED" } (by decide)
  exact ⟨h2.1, h2.2.1, h2.2.2.trans (by decide)⟩

/-- C2: for a well-formed bulk request (both engines), the protocol status is
200 exactly when zero per-item failures occurred, and 207 whenever at least
one item failed — even when every item failed — with the `success` flag true
exactly in the 200 case. -/
theorem c2_status_codes :
    (∀ (db : PStore) (uid : String) (req : PlaythroughBulkRequest) (now : Nat) out,
      bulk_playthrough_operations db uid req now = .ok out →
      (out.2.2 = 200 ∨ out.2.2 = 207)
      ∧ (out.2.2 = 200 ↔ out.2.1.failed_items.getD [] = [])
      ∧ (out.2.1.failed_items.getD [] ≠ [] → out.2.2 = 207)
      ∧ (out.2.1.success = true ↔ out.2.2 = 200))
    ∧ (∀ (db : CStore) (uid : String) (req : BulkCollectionRequest) (now : Nat) out,
      bulk_collection_operations db uid req now = .ok out →
      (out.2.2 = 200 ∨ out.2.2 = 207)
      ∧ (out.2.2 = 200 ↔ out.2.1.results.countP (fun r => !r.success) = 0)
      ∧ (out.2.1.results.countP (fun r => !r.success) ≠ 0 → out.2.2 = 207)
      ∧ (out.2.1.success = true ↔ out.2.2 = 200)) := by
  constructor
  · intro db uid req now out h
    unfold bulk_playthrough_operations at h
    cases hreq : requiredDataOkP req.action req.data with
    | false =>
      rw [hreq] at h
      simp only [Bool.not_false, if_true] at h
      exact absurd h (by simp)
    | true =>
      rw [hreq] at h
      simp only [Bool.not_true, Bool.false_eq_true, if_false] at h
      cases hfe : (bulkLoopP uid req.action (req.data.getD {}) now
          req.playthrough_ids db [] []).2.2.isEmpty with
      | true =>
        rw [hfe] at h
        simp only [if_true] at h
        cases h
        simp
      | false =>
        rw [hfe] at h
        simp only [Bool.false_eq_true, if_false] at h
        cases h
        have hne : (bulkLoopP uid req.action (req.data.getD {}) now
            req.playthrough_ids db [] []).2.2 ≠ [] := by
          intro hnil
          rw [hnil] at hfe
          simp at hfe
        simp [hne]
  · intro db uid req now out h
    unfold bulk_collection_operations at h
    cases hreq : requiredDataOkC req.action req.data with
    | false =>
      rw [hreq] at h
      simp only [Bool.not_false, if_true] at h
      exact absurd h (by simp)
    | true =>
      rw [hreq] at h
      simp only [Bool.not_true, Bool.false_eq_true, if_false] at h
      have hinv := bulkLoopC_inv uid req.action (req.data.getD {}) now
        req.collection_ids db [] 0
      cases hupd : (bulkLoopC uid req.action (req.data.getD {}) now
          req.collection_ids db [] 0).2.2 == req.collection_ids.length with
      | true =>
        rw [hupd] at h
        simp only [if_true] at h
        cases h
        have heq := beq_iff_eq.mp hupd
        have hcnt : (bulkLoopC uid req.action (req.data.getD {}) now
            req.collection_ids db [] 0).2.1.countP (fun r => !r.success) = 0 := by
          have := hinv.2
          simp only [List.countP_nil, List.length_nil, Nat.zero_add] at this
          omega
        simp [hupd, hcnt]
      | false =>
        rw [hupd] at h
        simp only [Bool.false_eq_true, if_false] at h
        cases h
        have hne := beq_iff_eq.not.mp (by simp [hupd] : ¬ ((bulkLoopC uid req.action
          (req.data.getD {}) now req.collection_ids db [] 0).2.2
            == req.collection_ids.length) = true)
        have hcnt : (bulkLoopC uid req.action (req.data.getD {}) now
            req.collection_ids db [] 0).2.1.countP (fun r => !r.success) ≠ 0 := by
          have := hinv.2
          simp only [List.countP_nil, List.length_nil, Nat.zero_add] at this
          omega
        simp [hupd, hcnt]

/-- Witness for C2: one success and one failure yield 207 with success=false. -/
theorem c2_status_codes_witness :
    let out : PStore × PlaythroughBulkResponse × Nat :=
      (storeWriteP fixtureDb "pt-a" { ptA with status := "DROPPED", updated_at := 7 },
        { success := false, updated_count := 1,
          items := [{ id := "pt-a", status := some "DROPPED" }],
          failed_count := some 1,
          failed_items := some [{ id := "missing", error := "Playthrough not found" }] },
        207)
    (out.2.2 = 200 ∨ out.2.2 = 207)
    ∧ (out.2.2 = 200 ↔ out.2.1.failed_items.getD [] = [])
    ∧ (out.2.1.failed_items.getD [] ≠ [] → out.2.2 = 207)
    ∧ (out.2.1.success = true ↔ out.2.2 = 200) :=
  c2_status_codes.1 fixtureDb "user-1"
    { action := BulkAction.update_status, playthrough_ids := ["pt-a", "missing"],
      data := some { status := some (JsonVal.s "DROPPED") } } 7
    (storeWriteP fixtureDb "pt-a" { ptA with status := "DROPPED", updated_at := 7 },
      { success := false, updated_count := 1,
        items := [{ id := "pt-a", status := some "DROPPED" }],
        failed_count := some 1,
        failed_items := some [{ id := "missing", error := "Playthrough not found" }] },
      207)
    (by rfl)

/-- C5: a bulk request whose payload lacks the field its action structurally
requires is rejected with a single request-level 400 before any target is
resolved or mutated: the operation returns the error and produces neither
per-item results nor a new store. -/
theorem c5_missing_payload_badrequest :
    (∀ (db : PStore) (uid : String) (ids : List String) (d : Option PBulkData) (now : Nat),
      requiredDataOkP .update_status d = false →
      bulk_playthrough_operations db uid
          { action := .update_status, playthrough_ids := ids, data := d } now
        = .error ⟨400, "Status is required for update_status action"⟩)
    ∧ (∀ (db : PStore) (uid : String) (ids : List String) (d : Option PBulkData) (now : Nat),
      requiredDataOkP .update_platform d = false →
      bulk_playthrough_operations db uid
          { action := .update_platform, playthrough_ids := ids, data := d } now
        = .error ⟨400, "Platform is required for update_platform action"⟩)
    ∧ (∀ (db : PStore) (uid : String) (ids : List String) (d : Option PBulkData) (now : Nat),
      requiredDataOkP .add_time d = false →
      bulk_playthrough_operations db uid
          { action := .add_time, playthrough_ids := ids, data := d } now
        = .error ⟨400, "Hours is required for add_time action"⟩)
    ∧ (∀ (db : CStore) (uid : String) (ids : List String) (d : Option CollBulkData) (now : Nat),
      requiredDataOkC .update_priority d = false →
      bulk_collection_operations db uid
          { action := .update_priority, collection_ids := ids, data := d } now
        = .error ⟨400, "Priority data is required for update_priority action"⟩)
    ∧ (∀ (db : CStore) (uid : String) (ids : List String) (d : Option CollBulkData) (now : Nat),
      requiredDataOkC .update_platform d = false →
      bulk_collection_operations db uid
          { action := .update_platform, collection_ids := ids, data := d } now
        = .error ⟨400, "Platform data is required for update_platform action"⟩) := by
  refine ⟨?_, ?_, ?_, ?_, ?_⟩ <;>
    (intro db uid ids d now h
     first
      | (unfold bulk_playthrough_operations
         simp only [h, Bool.not_false, if_true]
         rfl)
      | (unfold bulk_collection_operations
         simp only [h, Bool.not_false, if_true]
         rfl))

/-- Witness for C5: `data: {}` for a status update is a request-level 400. -/
theorem c5_missing_payload_badrequest_witness :
    bulk_playthrough_operations fixtureDb "user-1"
        { action := .update_status, playthrough_ids := ["pt-a"], data := some {} } 7
      = .error ⟨400, "Status is required for update_status action"⟩ :=
  c5_missing_payload_badrequest.1 fixtureDb "user-1" ["pt-a"] (some {}) 7 (by decide)

/-- C6: completing a playthrough whose current status is COMPLETED, MASTERED
or DROPPED is a 409 conflict naming the current status; the error branch
commits nothing. -/
theorem c6_complete_already_finalized :
    ∀ (db : PStore) (uid pid : String) (c : PlaythroughComplete) (now : Nat)
      (p : Playthrough),
      findOwnedP db uid pid = some p →
      (p.status = "COMPLETED" ∨ p.status = "MASTERED" ∨ p.status = "DROPPED") →
      complete_playthrough db uid pid c now
        = .error ⟨409, "Playthrough is already completed with status " ++ p.status⟩ := by
  intro db uid pid c now p hf hs
  unfold complete_playthrough
  rw [hf]
  simp only []
  have hcond : (p.status == "COMPLETED" || p.status == "MASTERED"
      || p.status == "DROPPED") = true := by
    rcases hs with h | h | h <;> simp [h]
  rw [hcond]
  simp

/-- Witness for C6: completing an already-COMPLETED playthrough is a 409. -/
theorem c6_complete_already_finalized_witness :
    complete_playthrough [ptDone] "user-1" "pt-done"
        { completion_type := CompletionType.MASTERED } 9
      = .error ⟨409, "Playthrough is already completed with status COMPLETED"⟩ :=
  c6_complete_already_finalized [ptDone] "user-1" "pt-done"
    { completion_type := CompletionType.MASTERED } 9 ptDone (by rfl) (Or.inl rfl)

/-! ### Not-found helper lemmas for ownership opacity -/

theorem findOwnedP_none_of_unowned (db : PStore) (uid i : String)
    (h : ∀ p ∈ db, p.id = i → p.user_id ≠ uid) : findOwnedP db uid i = none := by
  unfold findOwnedP
  rw [List.find?_eq_none]
  intro p hp
  simp only [Bool.and_eq_true, beq_iff_eq, not_and]
  intro hid
  exact h p hp hid

theorem findOwnedP_filter_none (db : PStore) (uid i : String) :
    findOwnedP (db.filter fun p => !(p.id == i)) uid i = none := by
  unfold findOwnedP
  rw [List.find?_eq_none]
  intro p hp
  have := (List.mem_filter.mp hp).2
  simp only [Bool.not_eq_true', beq_eq_false_iff_ne] at this
  simp [this]

theorem findOwnedC_none_of_unowned (db : CStore) (uid i : String)
    (h : ∀ c ∈ db, c.id = i → c.user_id ≠ uid) : findOwnedC db uid i = none := by
  unfold findOwnedC
  rw [List.find?_eq_none]
  intro c hc
  simp only [Bool.and_eq_true, beq_iff_eq, not_and]
  intro hid
  exact h c hc hid

theorem findOwnedC_filter_none (db : CStore) (uid i : String) :
    findOwnedC (db.filter fun c => !(c.id == i)) uid i = none := by
  unfold findOwnedC
  rw [List.find?_eq_none]
  intro c hc
  have := (List.mem_filter.mp hc).2
  simp only [Bool.not_eq_true', beq_eq_false_iff_ne] at this
  simp [this]

theorem get_playthrough_by_id_notfound (db : PStore) (games : List Game)
    (uid pid : String) (h : findOwnedP db uid pid = none) :
    get_playthrough_by_id db games uid pid = .error ⟨404, "Playthrough not found"⟩ := by
  unfold get_playthrough_by_id
  rw [h]

theorem update_playthrough_notfound (db : PStore) (uid pid : String)
    (upd : PlaythroughUpdate) (now : Nat) (h : findOwnedP db uid pid = none) :
    update_playthrough db uid pid upd now = .error ⟨404, "Playthrough not found"⟩ := by
  unfold update_playthrough
  rw [h]

theorem complete_playthrough_notfound (db : PStore) (uid pid : String)
    (c : PlaythroughComplete) (now : Nat) (h : findOwnedP db uid pid = none) :
    complete_playthrough db uid pid c now = .error ⟨404, "Playthrough not found"⟩ := by
  unfold complete_playthrough
  rw [h]

theorem delete_playthrough_notfound (db : PStore) (uid pid : String)
    (h : findOwnedP db uid pid = none) :
    delete_playthrough db uid pid = .error ⟨404, "Playthrough not found"⟩ := by
  unfold delete_playthrough
  rw [h]

theorem processOneP_notfound (uid : String) (act : BulkAction) (d : PBulkData)
    (now : Nat) (db : PStore) (pid : String) (h : findOwnedP db uid pid = none) :
    processOneP uid act d now db pid = .inr ⟨pid, "Playthrough not found"⟩ := by
  unfold processOneP
  rw [h]

theorem get_collection_item_notfound (db : CStore) (games : List Game)
    (uid cid : String) (h : findOwnedC db uid cid = none) :
    get_collection_item db games uid cid = .error ⟨404, "Collection item not found"⟩ := by
  unfold get_collection_item
  rw [h]

theorem update_collection_item_notfound (db : CStore) (games : List Game)
    (uid cid : String) (upd : CollectionItemUpdate) (now : Nat)
    (h : findOwnedC db uid cid = none) :
    update_collection_item db games uid cid upd now
      = .error ⟨404, "Collection item not found"⟩ := by
  unfold update_collection_item
  rw [h]

theorem delete_collection_item_notfound (db : CStore) (plays : PStore)
    (uid cid : String) (hard : Bool) (now : Nat) (h : findOwnedC db uid cid = none) :
    delete_collection_item db plays uid cid hard now
      = .error ⟨404, "Collection item not found"⟩ := by
  unfold delete_collection_item
  rw [h]

theorem processOneC_notfound (uid : String) (act : BulkCollectionAction)
    (d : CollBulkData) (now : Nat) (db : CStore) (cid : String)
    (h : findOwnedC db uid cid = none) :
    processOneC uid act d now db cid
      = .inr ⟨cid, false, some "Collection item not found or not owned by user"⟩ := by
  unfold processOneC
  rw [h]

/-- C7: on every id-targeted operation (get, update, complete, delete and the
per-item resolution of both bulk loops), a record owned by a different user is
observationally identical to a non-existent record: the operation returns the
very same not-found outcome it returns on a store from which every record with
that id has been removed. -/
theorem c7_ownership_opacity :
    ∀ (db : PStore) (cdb : CStore) (games : List Game) (plays : PStore)
      (uid i ic : String) (upd : PlaythroughUpdate) (c : PlaythroughComplete)
      (act : BulkAction) (d : PBulkData) (cupd : CollectionItemUpdate)
      (cact : BulkCollectionAction) (cd : CollBulkData) (hard : Bool) (now : Nat),
      (∀ p ∈ db, p.id = i → p.user_id ≠ uid) →
      (∀ c0 ∈ cdb, c0.id = ic → c0.user_id ≠ uid) →
      (get_playthrough_by_id db games uid i
          = get_playthrough_by_id (db.filter fun p => !(p.id == i)) games uid i
        ∧ get_playthrough_by_id db games uid i = .error ⟨404, "Playthrough not found"⟩)
      ∧ (update_playthrough db uid i upd now
          = update_playthrough (db.filter fun p => !(p.id == i)) uid i upd now
        ∧ update_playthrough db uid i upd now = .error ⟨404, "Playthrough not found"⟩)
      ∧ (complete_playthrough db uid i c now
          = complete_playthrough (db.filter fun p => !(p.id == i)) uid i c now
        ∧ complete_playthrough db uid i c now = .error ⟨404, "Playthrough not found"⟩)
      ∧ (delete_playthrough db uid i
          = delete_playthrough (db.filter fun p => !(p.id == i)) uid i
        ∧ delete_playthrough db uid i = .error ⟨404, "Playthrough not found"⟩)
      ∧ (processOneP uid act d now db i
          = processOneP uid act d now (db.filter fun p => !(p.id == i)) i
        ∧ processOneP uid act d now db i = .inr ⟨i, "Playthrough not found"⟩)
      ∧ (get_collection_item cdb games uid ic
          = get_collection_item (cdb.filter fun c0 => !(c0.id == ic)) games uid ic
        ∧ get_collection_item cdb games uid ic
            = .error ⟨404, "Collection item not found"⟩)
      ∧ (update_collection_item cdb games uid ic cupd now
          = update_collection_item (cdb.filter fun c0 => !(c0.id == ic)) games uid ic cupd now
        ∧ update_collection_item cdb games uid ic cupd now
            = .error ⟨404, "Collection item not found"⟩)
      ∧ (delete_collection_item cdb plays uid ic hard now
          = delete_collection_item (cdb.filter fun c0 => !(c0.id == ic)) plays uid ic hard now
        ∧ delete_collection_item cdb plays uid ic hard now
            = .error ⟨404, "Collection item not found"⟩)
      ∧ (processOneC uid cact cd now cdb ic
          = processOneC uid cact cd now (cdb.filter fun c0 => !(c0.id == ic)) ic
        ∧ processOneC uid cact cd now cdb ic
            = .inr ⟨ic, false, some "Collection item not found or not owned by user"⟩) := by
  intro db cdb games plays uid i ic upd c act d cupd cact cd hard now hp hc
  have hN := findOwnedP_none_of_unowned db uid i hp
  have hNf := findOwnedP_filter_none db uid i
  have hM := findOwnedC_none_of_unowned cdb uid ic hc
  have hMf := findOwnedC_filter_none cdb uid ic
  refine ⟨⟨?_, ?_⟩, ⟨?_, ?_⟩, ⟨?_, ?_⟩, ⟨?_, ?_⟩, ⟨?_, ?_⟩,
    ⟨?_, ?_⟩, ⟨?_, ?_⟩, ⟨?_, ?_⟩, ⟨?_, ?_⟩⟩
  · exact (get_playthrough_by_id_notfound db games uid i hN).trans
      (get_playthrough_by_id_notfound _ games uid i hNf).symm
  · exact get_playthrough_by_id_notfound db games uid i hN
  · exact (update_playthrough_notfound db uid i upd now hN).trans
      (update_playthrough_notfound _ uid i upd now hNf).symm
  · exact update_playthrough_notfound db uid i upd now hN
  · exact (complete_playthrough_notfound db uid i c now hN).trans
      (complete_playthrough_notfound _ uid i c now hNf).symm
  · exact complete_playthrough_notfound db uid i c now hN
  · exact (delete_playthrough_notfound db uid i hN).trans
      (delete_playthrough_notfound _ uid i hNf).symm
  · exact delete_playthrough_notfound db uid i hN
  · exact (processOneP_notfound uid act d now db i hN).trans
      (processOneP_notfound uid act d now _ i hNf).symm
  · exact processOneP_notfound uid act d now db i hN
  · exact (get_collection_item_notfound cdb games uid ic hM).trans
      (get_collection_item_notfound _ games uid ic hMf).symm
  · exact get_collection_item_notfound cdb games uid ic hM
  · exact (update_collection_item_notfound cdb games uid ic cupd now hM).trans
      (update_collection_item_notfound _ games uid ic cupd now hMf).symm
  · exact update_collection_item_notfound cdb games uid ic cupd now hM
  · exact (delete_collection_item_notfound cdb plays uid ic hard now hM).trans
      (delete_collection_item_notfound _ plays uid ic hard now hMf).symm
  · exact delete_collection_item_notfound cdb plays uid ic hard now hM
  · exact (processOneC_notfound uid cact cd now cdb ic hM).trans
      (processOneC_notfound uid cact cd now _ ic hMf).symm
  · exact processOneC_notfound uid cact cd now cdb ic hM

/-- Witness for C7: a record owned by user-2 is a plain 404 for user-1, for
both resource kinds, identical to the record not existing. -/
theorem c7_ownership_opacity_witness :
    (update_playthrough [ptHostile] "user-1" "pt-h" {} 9
        = update_playthrough ([ptHostile].filter fun p => !(p.id == "pt-h"))
            "user-1" "pt-h" {} 9
      ∧ update_playthrough [ptHostile] "user-1" "pt-h" {} 9
          = .error ⟨404, "Playthrough not found"⟩)
    ∧ get_collection_item [colHostile] [gameOne] "user-1" "col-9"
        = .error ⟨404, "Collection item not found"⟩ := by
  have h := c7_ownership_opacity [ptHostile] [colHostile] [gameOne] [] "user-1"
    "pt-h" "col-9" {} { completion_type := .COMPLETED } .delete {} {} .hide {}
    true 9 (by decide) (by decide)
  exact ⟨⟨h.2.1.1, h.2.1.2⟩, h.2.2.2.2.2.1.2⟩

/-- C8: creating a playthrough whose collection item belongs to the caller but
references a different game fails before any insert — but with HTTP 400, not
the 422 the specification requires (the repository's own test,
`test_create_playthrough_collection_game_mismatch`, asserts 422): evaluation
of the create path at the failing input. -/
theorem c8_cross_game_create_returns_400 :
    create_playthrough [gameOne, gameTwo] [colOne] fixtureDb "user-1"
        { game_id := "game-2", collection_id := some "col-1",
          status := PlaythroughStatus.PLANNING, platform := "PC" } "new-id" 7
      = .error ⟨400, "Collection item is for a different game"⟩
    ∧ (400 : Nat) ≠ 422 := by
  exact ⟨by rfl, by decide⟩

/-- Counterexample for C9: the claim admits every non-negative hours value,
but `hours = 0` is rejected per item with "Hours must be positive" and the
store is left unchanged. -/
theorem c9_add_time_counterexample :
    bulk_playthrough_operations [ptTwo] "user-1"
        { action := .add_time, playthrough_ids := ["pt-2"],
          data := some { hours := some (JsonVal.i 0) } } 7
      = .ok ([ptTwo],
          { success := false, updated_count := 0, items := [],
            failed_count := some 1,
            failed_items := some [{ id := "pt-2", error := "Hours must be positive" }] },
          207) := by
  rfl

/-- C9 (amended): for every *strictly positive* numeric hours value, the
per-item add_time action succeeds and sets `play_time_hours` to the previous
value plus the delta, treating an unset previous value as zero. -/
theorem c9_add_time_positive :
    ∀ (db : PStore) (uid pid : String) (h : ℚ) (now : Nat) (p : Playthrough),
      findOwnedP db uid pid = some p → 0 < h →
      processOneP uid .add_time { hours := some (.f h) } now db pid
        = .inl (storeWriteP db pid
            { p with play_time_hours := some (p.play_time_hours.getD 0 + h),
                     updated_at := now },
            { id := p.id, play_time_hours := some (p.play_time_hours.getD 0 + h) }) := by
  intro db uid pid h now p hf hpos
  unfold processOneP
  rw [hf]
  simp only [bulkItemApply, pyFloat]
  rw [if_neg (not_le.mpr hpos)]

/-- Witness for C9: adding 5.5 hours to a playthrough with unset
`play_time_hours` yields exactly 5.5. -/
theorem c9_add_time_positive_witness :
    processOneP "user-1" .add_time { hours := some (.f (11/2 : ℚ)) } 7 [ptTwo] "pt-2"
      = .inl (storeWriteP [ptTwo] "pt-2"
          { ptTwo with play_time_hours := some ((11 : ℚ)/2), updated_at := 7 },
          { id := "pt-2", play_time_hours := some ((11 : ℚ)/2) }) := by
  have h := c9_add_time_positive [ptTwo] "user-1" "pt-2" ((11 : ℚ)/2) 7 ptTwo
    (by rfl) (by norm_num)
  rw [h]
  simp [ptTwo, ptA]

/-! ### Success-shape lemmas for the single-item mutators -/

theorem update_playthrough_ok_shape (db : PStore) (uid pid : String)
    (upd : PlaythroughUpdate) (now : Nat) (p : Playthrough) (s' : PStore)
    (r : Playthrough) (hf : findOwnedP db uid pid = some p)
    (h : update_playthrough db uid pid upd now = .ok (s', r)) :
    r = updatedRecord p upd now ∧ s' = storeWriteP db pid r := by
  unfold update_playthrough updateApplyCommit at h
  rw [hf] at h
  simp only [] at h
  repeat' split at h
  all_goals first
    | (cases h; exact ⟨rfl, rfl⟩)
    | exact Except.noConfusion h

theorem complete_playthrough_ok_shape (db : PStore) (uid pid : String)
    (c : PlaythroughComplete) (now : Nat) (p : Playthrough) (s' : PStore)
    (r : Playthrough) (hf : findOwnedP db uid pid = some p)
    (h : complete_playthrough db uid pid c now = .ok (s', r)) :
    r = completedRecord p c now ∧ s' = storeWriteP db pid r := by
  unfold complete_playthrough at h
  rw [hf] at h
  simp only [] at h
  repeat' split at h
  all_goals first
    | (cases h; exact ⟨rfl, rfl⟩)
    | exact Except.noConfusion h

/-- C4 (amended): the automatic timestamp policy on every accepted status
change.  Into PLAYING (update and bulk paths), `started_at` is set to the
current instant only if unset.  Into COMPLETED or MASTERED, `completed_at` is
set only if unset, and a caller-supplied `completed_at` wins.  Into ON_HOLD or
PLANNING no automatic timestamp write occurs, and the same holds for DROPPED
on the update and bulk paths — but on the complete path a DROPPED completion
also auto-sets `completed_at` when unset (the amendment forced by the code).
`updated_at` is refreshed on every successful mutation, including no-op
transitions and every non-delete bulk write. -/
theorem c4_timestamp_policy :
    (∀ (db : PStore) (uid pid : String) (upd : PlaythroughUpdate) (now : Nat)
        (p : Playthrough) (s' : PStore) (r : Playthrough),
      findOwnedP db uid pid = some p →
      update_playthrough db uid pid upd now = .ok (s', r) →
      r.updated_at = now
      ∧ (upd.statusVal = some "PLAYING" → upd.started_at = .unset →
          ((p.started_at = none → r.started_at = some now)
           ∧ ∀ t0, p.started_at = some t0 → r.started_at = some t0))
      ∧ ((upd.statusVal = some "COMPLETED" ∨ upd.statusVal = some "MASTERED") →
          (upd.completed_at = .unset →
            ((p.completed_at = none → r.completed_at = some now)
             ∧ ∀ t0, p.completed_at = some t0 → r.completed_at = some t0))
          ∧ (∀ dt, upd.completed_at = .val dt → r.completed_at = some dt))
      ∧ (∀ s0, upd.status = .val s0 →
          (s0 = .ON_HOLD ∨ s0 = .DROPPED ∨ s0 = .PLANNING) →
          upd.started_at = .unset → upd.completed_at = .unset →
          r.started_at = p.started_at ∧ r.completed_at = p.completed_at))
    ∧ (∀ (db : PStore) (uid pid : String) (c : PlaythroughComplete) (now : Nat)
        (p : Playthrough) (s' : PStore) (r : Playthrough),
      findOwnedP db uid pid = some p →
      complete_playthrough db uid pid c now = .ok (s', r) →
      r.updated_at = now
      ∧ r.started_at = p.started_at
      ∧ ((c.completion_type = .COMPLETED ∨ c.completion_type = .MASTERED
            ∨ c.completion_type = .DROPPED) →
          (c.completed_at = none →
            ((p.completed_at = none → r.completed_at = some now)
             ∧ ∀ t0, p.completed_at = some t0 → r.completed_at = some t0))
          ∧ (∀ dt, c.completed_at = some dt → r.completed_at = some dt))
      ∧ (c.completion_type = .ON_HOLD → r.completed_at = p.completed_at))
    ∧ (∀ (d : PBulkData) (now : Nat) (p p' : Playthrough) (res : BulkResultItem)
        (t : String),
      d.status = some (.s t) →
      bulkItemApply .update_status d now p = .write p' res →
      (t = "PLAYING" →
          ((p.started_at = none → p'.started_at = some now)
           ∧ ∀ t0, p.started_at = some t0 → p'.started_at = some t0)
          ∧ p'.completed_at = p.completed_at)
      ∧ ((t = "COMPLETED" ∨ t = "MASTERED") →
          ((p.completed_at = none → p'.completed_at = some now)
           ∧ ∀ t0, p.completed_at = some t0 → p'.completed_at = some t0)
          ∧ p'.started_at = p.started_at)
      ∧ ((t = "ON_HOLD" ∨ t = "DROPPED" ∨ t = "PLANNING") →
          p'.started_at = p.started_at ∧ p'.completed_at = p.completed_at))
    ∧ (∀ (act : BulkAction) (d : PBulkData) (now : Nat) (p p' : Playthrough)
        (res : BulkResultItem),
      bulkItemApply act d now p = .write p' res → p'.updated_at = now) := by
  refine ⟨?_, ?_, ?_, ?_⟩
  · intro db uid pid upd now p s' r hf h
    obtain ⟨hr, -⟩ := update_playthrough_ok_shape db uid pid upd now p s' r hf h
    subst hr
    refine ⟨rfl, ?_, ?_, ?_⟩
    · intro hS hU
      constructor
      · intro hsa
        simp [updatedRecord, hS, hU, applyPatch, hsa]
      · intro t0 ht0
        simp [updatedRecord, hS, hU, applyPatch, ht0]
    · intro hS
      constructor
      · intro hU
        constructor
        · intro hca
          rcases hS with hS | hS <;> simp [updatedRecord, hS, hU, applyPatch, hca]
        · intro t0 ht0
          rcases hS with hS | hS <;> simp [updatedRecord, hS, hU, applyPatch, ht0]
      · intro dt hV
        rcases hS with hS | hS <;> simp [updatedRecord, hS, hV, applyPatch]
    · intro s0 hs0 hmem hU hC
      rcases hmem with rfl | rfl | rfl <;>
        constructor <;>
        simp [updatedRecord, PlaythroughUpdate.statusVal, hs0, hU, hC, applyPatch,
          PlaythroughStatus.val]
  · intro db uid pid c now p s' r hf h
    obtain ⟨hr, -⟩ := complete_playthrough_ok_shape db uid pid c now p s' r hf h
    subst hr
    refine ⟨rfl, ?_, ?_, ?_⟩
    · cases hfp : c.final_play_time_hours <;> cases hrt : c.rating <;>
        cases hn : c.final_notes <;> cases hca : c.completed_at <;>
        cases ht : c.completion_type <;>
        simp [completedRecord, CompletionType.val, hfp, hrt, hn, hca, ht] <;>
        split <;> rfl
    · intro hT
      constructor
      · intro hC
        constructor
        · intro hca
          rcases hT with ht | ht | ht <;>
            cases hfp : c.final_play_time_hours <;> cases hrt : c.rating <;>
            cases hn : c.final_notes <;>
            simp [completedRecord, CompletionType.val, hfp, hrt, hn, hC, ht, hca]
        · intro t0 ht0
          rcases hT with ht | ht | ht <;>
            cases hfp : c.final_play_time_hours <;> cases hrt : c.rating <;>
            cases hn : c.final_notes <;>
            simp [completedRecord, CompletionType.val, hfp, hrt, hn, hC, ht, ht0]
      · intro dt hV
        rcases hT with ht | ht | ht <;>
          cases hfp : c.final_play_time_hours <;> cases hrt : c.rating <;>
          cases hn : c.final_notes <;>
          simp [completedRecord, CompletionType.val, hfp, hrt, hn, hV, ht]
    · intro ht
      cases hfp : c.final_play_time_hours <;> cases hrt : c.rating <;>
        cases hn : c.final_notes <;>
        simp [completedRecord, CompletionType.val, hfp, hrt, hn, ht]
  · intro d now p p' res t hd h
    unfold bulkItemApply at h
    rw [hd] at h
    simp only [] at h
    split at h
    case isTrue hvalid =>
      cases h
      refine ⟨?_, ?_, ?_⟩
      · intro ht
        subst ht
        constructor
        · constructor
          · intro hsa
            simp [hsa]
          · intro t0 ht0
            simp [ht0]
        · cases hsa : p.started_at <;> simp [hsa]
      · intro ht
        rcases ht with rfl | rfl <;>
          (constructor
           · constructor
             · intro hca
               simp [hca]
             · intro t0 ht0
               simp [ht0]
           · cases hca : p.completed_at <;> simp [hca])
      · intro ht
        rcases ht with rfl | rfl | rfl <;> constructor <;> simp
    case isFalse => exact PItemStep.noConfusion h
  · intro act d now p p' res h
    cases act <;> simp only [bulkItemApply] at h <;>
      (repeat' split at h) <;> (try (cases h)) <;> rfl

/-- Counterexample for C4 as stated: completing a PLAYING playthrough with
completion type DROPPED and no caller-supplied `completed_at` automatically
writes `completed_at := now` — an automatic timestamp write on a transition
into DROPPED, which the claim forbids on every mutation path. -/
theorem c4_timestamp_policy_counterexample :
    complete_playthrough [ptTwo] "user-1" "pt-2"
        { completion_type := CompletionType.DROPPED } 42
      = .ok (storeWriteP [ptTwo] "pt-2"
            { ptTwo with status := "DROPPED", completed_at := some 42, updated_at := 42 },
          { ptTwo with status := "DROPPED", completed_at := some 42, updated_at := 42 })
    ∧ ptTwo.completed_at = none := ⟨rfl, rfl⟩

/-- Witness for C4 (amended): updating a PLANNING playthrough to PLAYING
auto-sets `started_at` to the current instant and refreshes `updated_at`. -/
theorem c4_timestamp_policy_witness :
    ({ ptA with status := "PLAYING", started_at := some 9, updated_at := 9
        : Playthrough }).updated_at = 9
    ∧ ({ ptA with status := "PLAYING", started_at := some 9, updated_at := 9
        : Playthrough }).started_at = some 9 := by
  have h := c4_timestamp_policy.1 [ptA] "user-1" "pt-a"
    { status := .val .PLAYING } 9 ptA
    (storeWriteP [ptA] "pt-a"
      { ptA with status := "PLAYING", started_at := some 9, updated_at := 9 })
    { ptA with status := "PLAYING", started_at := some 9, updated_at := 9 }
    (by rfl) (by rfl)
  exact ⟨h.1, (h.2.1 (by rfl) (by rfl)).1 (by rfl)⟩

/-! ### Status-invariant helper lemmas -/

theorem playthroughStatus_val_mem (s : PlaythroughStatus) : s.val ∈ statusStrings := by
  cases s <;> decide

theorem completionType_val_mem (c : CompletionType) : c.val ∈ statusStrings := by
  cases c <;> decide

theorem transition_target_mem (f t : String) (hf : f ∈ statusStrings)
    (h : _is_valid_status_transition f t = true) : t ∈ statusStrings := by
  unfold _is_valid_status_transition at h
  by_cases hft : f = t
  · exact hft ▸ hf
  · rw [if_neg hft] at h
    have hmem : t ∈ validTransitions f := by simpa using h
    fin_cases hf <;> simp [validTransitions] at hmem <;> simp [statusStrings] <;> tauto

theorem storeStatusOk_write {db : PStore} {pid : String} {p' : Playthrough}
    (hdb : storeStatusOk db) (hp' : p'.status ∈ statusStrings) :
    storeStatusOk (storeWriteP db pid p') := by
  intro q hq
  obtain ⟨a, ha, rfl⟩ := List.mem_map.mp hq
  split
  · exact hp'
  · exact hdb a ha

theorem storeStatusOk_delete {db : PStore} {pid : String}
    (hdb : storeStatusOk db) : storeStatusOk (storeDeleteP db pid) :=
  fun q hq => hdb q (List.mem_of_mem_filter hq)

theorem updatedRecord_status (p : Playthrough) (upd : PlaythroughUpdate) (now : Nat) :
    (updatedRecord p upd now).status
      = (match upd.status with | .val s => s.val | _ => p.status) := by
  unfold updatedRecord
  simp only []
  (repeat' split) <;> rfl

theorem completedRecord_status (p : Playthrough) (c : PlaythroughComplete) (now : Nat) :
    (completedRecord p c now).status = c.completion_type.val := by
  simp only [completedRecord]
  (repeat' split) <;> rfl

theorem bulkItemApply_status_mem (act : BulkAction) (d : PBulkData) (now : Nat)
    (p p' : Playthrough) (res : BulkResultItem)
    (hp : p.status ∈ statusStrings)
    (h : bulkItemApply act d now p = .write p' res) : p'.status ∈ statusStrings := by
  cases act with
  | update_status =>
    simp only [bulkItemApply] at h
    cases hd : d.status with
    | none => rw [hd] at h; simp only [] at h; exact PItemStep.noConfusion h
    | some v =>
      rw [hd] at h
      (try simp only [] at h)
      cases v with
      | s t =>
        (try simp only [] at h)
        split at h
        case isTrue hvalid =>
          cases h
          have ht : t ∈ statusStrings := transition_target_mem p.status t hp hvalid
          (repeat' split) <;> exact ht
        case isFalse => exact PItemStep.noConfusion h
      | i v' => simp only [] at h; exact PItemStep.noConfusion h
      | f v' => simp only [] at h; exact PItemStep.noConfusion h
      | null => simp only [] at h; exact PItemStep.noConfusion h
  | update_platform =>
    simp only [bulkItemApply] at h
    (repeat' split at h) <;>
      first
        | (cases h; exact hp)
        | exact PItemStep.noConfusion h
  | add_time =>
    simp only [bulkItemApply] at h
    (repeat' split at h) <;>
      first
        | (cases h; exact hp)
        | exact PItemStep.noConfusion h
  | delete =>
    simp only [bulkItemApply] at h
    exact PItemStep.noConfusion h

theorem processOneP_statusOk (uid : String) (act : BulkAction) (d : PBulkData)
    (now : Nat) (s : PStore) (pid : String) (s' : PStore) (r : BulkResultItem)
    (hs : storeStatusOk s) (h : processOneP uid act d now s pid = .inl (s', r)) :
    storeStatusOk s' := by
  unfold processOneP at h
  cases hf : findOwnedP s uid pid with
  | none => rw [hf] at h; simp only [] at h; exact Sum.noConfusion h
  | some p =>
    rw [hf] at h; simp only [] at h
    have hp : p.status ∈ statusStrings := hs p (List.mem_of_find?_eq_some hf)
    cases ha : bulkItemApply act d now p with
    | write p' res =>
      rw [ha] at h; simp only [] at h; cases h
      exact storeStatusOk_write hs (bulkItemApply_status_mem act d now p p' r hp ha)
    | del res =>
      rw [ha] at h; simp only [] at h; cases h
      exact storeStatusOk_delete hs
    | fail msg => rw [ha] at h; simp only [] at h; exact Sum.noConfusion h

theorem bulkLoopP_statusOk (uid : String) (act : BulkAction) (d : PBulkData)
    (now : Nat) :
    ∀ (ids : List String) (s : PStore) (a : List BulkResultItem)
      (b : List BulkFailedItem), storeStatusOk s →
      storeStatusOk (bulkLoopP uid act d now ids s a b).1
  | [], _, _, _, hs => hs
  | pid :: rest, s, a, b, hs => by
    unfold bulkLoopP
    cases hstep : processOneP uid act d now s pid with
    | inl x =>
      exact bulkLoopP_statusOk uid act d now rest x.1 (a ++ [x.2]) b
        (processOneP_statusOk uid act d now s pid x.1 x.2 hs (by rw [hstep]))
    | inr f => exact bulkLoopP_statusOk uid act d now rest s a (b ++ [f]) hs

/-- C10: starting from a store whose persisted statuses are among the six
enum values, update, complete, create and the whole bulk operation preserve
that invariant; and in the bulk status-update path — which takes the new
status untyped from the request payload — any payload that is not one of the
six status strings fails the transition-legality check and becomes that
item's per-item failure, so it is never stored. -/
theorem c10_status_invariant :
    (∀ (db : PStore) (uid pid : String) (upd : PlaythroughUpdate) (now : Nat) out,
      storeStatusOk db → update_playthrough db uid pid upd now = .ok out →
      storeStatusOk out.1)
    ∧ (∀ (db : PStore) (uid pid : String) (c : PlaythroughComplete) (now : Nat) out,
      storeStatusOk db → complete_playthrough db uid pid c now = .ok out →
      storeStatusOk out.1)
    ∧ (∀ (games : List Game) (colls : CStore) (db : PStore) (uid : String)
        (data : PlaythroughCreate) (newId : String) (now : Nat) out,
      storeStatusOk db →
      create_playthrough games colls db uid data newId now = .ok out →
      storeStatusOk out.1)
    ∧ (∀ (db : PStore) (uid : String) (req : PlaythroughBulkRequest) (now : Nat) out,
      storeStatusOk db → bulk_playthrough_operations db uid req now = .ok out →
      storeStatusOk out.1)
    ∧ (∀ (d : PBulkData) (now : Nat) (p : Playthrough) (v : JsonVal),
      p.status ∈ statusStrings → d.status = some v →
      (∀ t, v = JsonVal.s t → t ∉ statusStrings) →
      ∃ msg, bulkItemApply .update_status d now p = .fail msg) := by
  refine ⟨?_, ?_, ?_, ?_, ?_⟩
  · intro db uid pid upd now out hdb h
    cases hf : findOwnedP db uid pid with
    | none =>
      rw [update_playthrough_notfound db uid pid upd now hf] at h
      exact Except.noConfusion h
    | some p =>
      obtain ⟨hr, hs⟩ := update_playthrough_ok_shape db uid pid upd now p out.1 out.2 hf h
      rw [hs]
      apply storeStatusOk_write hdb
      rw [hr, updatedRecord_status]
      have hp := hdb p (List.mem_of_find?_eq_some hf)
      cases upd.status with
      | val s => exact playthroughStatus_val_mem s
      | unset => exact hp
      | null => exact hp
  · intro db uid pid c now out hdb h
    cases hf : findOwnedP db uid pid with
    | none =>
      rw [complete_playthrough_notfound db uid pid c now hf] at h
      exact Except.noConfusion h
    | some p =>
      obtain ⟨hr, hs⟩ := complete_playthrough_ok_shape db uid pid c now p out.1 out.2 hf h
      rw [hs]
      apply storeStatusOk_write hdb
      rw [hr, completedRecord_status]
      exact completionType_val_mem c.completion_type
  · intro games colls db uid data newId now out hdb h
    unfold create_playthrough at h
    repeat' split at h
    all_goals try exact Except.noConfusion h
    all_goals
      (cases h
       intro q hq
       rcases List.mem_append.mp hq with hq | hq
       · exact hdb q hq
       · rw [List.mem_singleton.mp hq]
         exact playthroughStatus_val_mem data.status)
  · intro db uid req now out hdb h
    unfold bulk_playthrough_operations at h
    split at h
    · exact Except.noConfusion h
    · simp only [] at h
      cases h
      exact bulkLoopP_statusOk uid req.action (req.data.getD {}) now
        req.playthrough_ids db [] [] hdb
  · intro d now p v hp hd hjunk
    cases v with
    | s t =>
      have ht := hjunk t rfl
      have hfalse : _is_valid_status_transition p.status t = false := by
        cases hv : _is_valid_status_transition p.status t
        · rfl
        · exact absurd (transition_target_mem p.status t hp hv) ht
      exact ⟨"Invalid status transition from " ++ p.status ++ " to " ++ t,
        by simp [bulkItemApply, hd, hfalse]⟩
    | i n =>
      exact ⟨"Invalid status transition from " ++ p.status ++ " to " ++ (JsonVal.i n).toStr,
        by simp [bulkItemApply, hd]⟩
    | f q =>
      exact ⟨"Invalid status transition from " ++ p.status ++ " to " ++ (JsonVal.f q).toStr,
        by simp [bulkItemApply, hd]⟩
    | null =>
      exact ⟨"Invalid status transition from " ++ p.status ++ " to " ++ JsonVal.null.toStr,
        by simp [bulkItemApply, hd]⟩

/-- Witness for C10: a bulk status update whose payload status is the junk
string "ARCHIVED" leaves the store unchanged (reporting a per-item failure),
and the unchanged store still satisfies the status invariant. -/
theorem c10_status_invariant_witness :
    storeStatusOk ((fixtureDb,
        { success := false, updated_count := 0, items := [],
          failed_count := some 1,
          failed_items := some
            [{ id := "pt-a", error := "Invalid status transition from PLANNING to ARCHIVED" }] },
        207) : PStore × PlaythroughBulkResponse × Nat).1 :=
  c10_status_invariant.2.2.2.1 fixtureDb "user-1"
    { action := .update_status, playthrough_ids := ["pt-a"],
      data := some { status := some (JsonVal.s "ARCHIVED") } } 7
    (fixtureDb,
      { success := false, updated_count := 0, items := [],
        failed_count := some 1,
        failed_items := some
          [{ id := "pt-a", error := "Invalid status transition from PLANNING to ARCHIVED" }] },
      207)
    (by intro p hp
        simp only [fixtureDb, List.mem_cons, List.not_mem_nil, or_false] at hp
        rcases hp with rfl | rfl <;> decide) (by rfl)
